import Mathlib

/-!
Verification of the PeerSync backend core: a shallow embedding of the
peer registry, session registry, connection-request registry, socket
registry and the WebSocket gateway handlers, together with theorems
settling the specification claims.

Conventions of the embedding:
* JavaScript `Map` objects become association lists `List (String × α)`
  with JS insertion-order semantics (`mapSet` updates in place or appends,
  `mapDelete` removes the key, `mapLookup` finds the first binding).
* Timestamps (`Date`, `Date.now()`) become `Nat` milliseconds supplied as
  explicit `now` parameters.
* Asynchronous collaborator results (JWT verification, network lookup)
  become explicit input parameters of the handler functions.
* A handler's socket-level side effects (frames sent, sockets closed,
  socket-registry mutations) are recorded as a list of `Action`s in the
  order the source performs them.
-/

namespace PeerSync

/-- IDE tags, from `IdeType` in peer.types. -/
inductive IdeType where
  | vscode | cursor | jetbrains | vim | neovim | emacs | sublime | other
deriving DecidableEq

/-- Connection mode relative to another peer, from `ConnectionMode`. -/
inductive ConnectionMode where
  | lan | remote
deriving DecidableEq

/-- Peer roles, from `PeerRole`. -/
inductive PeerRole where
  | host | guest | observer
deriving DecidableEq

/-- Peer status, from `PeerStatus`. -/
inductive PeerStatus where
  | online | away | busy | offline
deriving DecidableEq

/-- Session status, from `SessionStatus`. -/
inductive SessionStatus where
  | pending | active | paused | ended
deriving DecidableEq

/-- Network context stored on a peer for LAN detection, from `NetworkContext`. -/
structure NetworkContext where
  publicIpHash : String
  connectionMode : ConnectionMode
deriving DecidableEq

/-- A registered peer, from `RegisteredPeer` in peer.types. The opaque
optional client `metadata` blob is not modelled (no core logic reads it). -/
structure RegisteredPeer where
  userId : String
  socketId : String
  displayName : String
  ide : IdeType
  role : PeerRole
  status : PeerStatus
  sessionIds : List String
  connectedAt : Nat
  lastActivityAt : Nat
  networkContext : Option NetworkContext
  networkId : Option String
deriving DecidableEq

/-- Registration payload, from `PeerRegistrationPayload` (metadata omitted,
see `RegisteredPeer`). `ide` and `role` are `Option` because the TS fields
are optional and defaulted with `||`. -/
structure PeerRegistrationPayload where
  displayName : String
  ide : Option IdeType
  role : Option PeerRole
deriving DecidableEq

/-- Authenticated user identity, from `AuthenticatedUser` in auth.types. -/
structure AuthenticatedUser where
  userId : String
  email : String
  displayName : String
  roles : List String
  provider : Option String
deriving DecidableEq

/-- One participant of a session, from `SessionParticipant`. -/
structure SessionParticipant where
  userId : String
  socketId : String
  role : PeerRole
  joinedAt : Nat
  lastActivityAt : Nat
deriving DecidableEq

/-- A collaboration session, from `CollaborationSession`. The TS
`participants: Map<string, SessionParticipant>` becomes an association
list keyed by user id. -/
structure CollaborationSession where
  sessionId : String
  hostUserId : String
  participants : List (String × SessionParticipant)
  status : SessionStatus
  createdAt : Nat
  lastActivityAt : Nat
deriving DecidableEq

/-- A pending connection request, from the `ConnectionRequest` interface
in the session service. -/
structure ConnectionRequest where
  requestId : String
  fromUserId : String
  toUserId : String
  createdAt : Nat
deriving DecidableEq

/-- The live WebSocket handle as the gateway observes it: all the gateway
reads from a handle held in the socket registry is whether
`readyState === WebSocket.OPEN`. -/
structure WsConn where
  isOpen : Bool
deriving DecidableEq

/-- Per-connection state, from the gateway's `SocketState`. -/
structure SocketState where
  socketId : String
  isAuthenticated : Bool
  isRegistered : Bool
  user : Option AuthenticatedUser
  isAlive : Bool
  connectedAt : Nat
  networkId : Option String
  ipHash : Option String
deriving DecidableEq

-- ═══════════════════════════════════════════════════════════════════════
-- JS `Map` semantics over association lists
-- ═══════════════════════════════════════════════════════════════════════

/-- JS `Map.prototype.get`: first binding for the key, if any. -/
def mapLookup : List (String × α) → String → Option α
  | [], _ => none
  | e :: t, k => if e.1 == k then some e.2 else mapLookup t k

/-- JS `Map.prototype.set`: update the existing binding in place (keeping
its insertion position) or append a new binding at the end. -/
def mapSet : List (String × α) → String → α → List (String × α)
  | [], k, v => [(k, v)]
  | e :: t, k, v => if e.1 == k then (k, v) :: t else e :: mapSet t k v

/-- JS `Map.prototype.delete`: remove the binding for the key. -/
def mapDelete (m : List (String × α)) (k : String) : List (String × α) :=
  m.filter (fun e => !(e.1 == k))

/-- JS `Map.prototype.has`. -/
def mapHas (m : List (String × α)) (k : String) : Bool :=
  (mapLookup m k).isSome

-- ═══════════════════════════════════════════════════════════════════════
-- Constants: error codes, error messages, event names (common/constants,
-- common/types/events.types)
-- ═══════════════════════════════════════════════════════════════════════

namespace ErrorCodes

def AUTH_TOKEN_MISSING : String := "ERR_1001"

def AUTH_TOKEN_INVALID : String := "ERR_1002"

def AUTH_TOKEN_EXPIRED : String := "ERR_1003"

def PEER_NOT_FOUND : String := "ERR_2001"

def PEER_ALREADY_CONNECTED : String := "ERR_2005"

def PEER_NOT_REGISTERED : String := "ERR_2006"

/-- Modelled from the spec: the constant `ErrorCodes.PEER_NOT_IN_SAME_NETWORK`
is referenced by the gateway but its declaration is absent from the packaged
copy of common/constants; the spec's error-code table assigns it `ERR_2007`
("peer not in same network"). -/
def PEER_NOT_IN_SAME_NETWORK : String := "ERR_2007"

def SESSION_NOT_FOUND : String := "ERR_3001"

def SESSION_NOT_PARTICIPANT : String := "ERR_3008"

def MESSAGE_TARGET_OFFLINE : String := "ERR_4003"

def WS_INVALID_MESSAGE : String := "ERR_5003"

def WS_NOT_AUTHENTICATED : String := "ERR_5005"

def CONNECTION_REQUEST_NOT_FOUND : String := "ERR_6001"

def CONNECTION_REQUEST_UNAUTHORIZED : String := "ERR_6004"

def VALIDATION_FAILED : String := "ERR_9003"

end ErrorCodes

namespace ErrorMessages

def authTokenMissing : String := "Authentication token is required"

def authTokenInvalid : String := "Authentication token is invalid"

def authTokenExpired : String := "Authentication token has expired"

end ErrorMessages

namespace WsEvents

def AUTH : String := "AUTH"

def AUTH_SUCCESS : String := "AUTH_SUCCESS"

def AUTH_FAILED : String := "AUTH_FAILED"

def PEER_REGISTER : String := "PEER_REGISTER"

def PEER_REGISTERED : String := "PEER_REGISTERED"

def PEER_STATUS_UPDATE : String := "PEER_STATUS_UPDATE"

def DISCOVER_PEERS : String := "DISCOVER_PEERS"

def PEERS_LIST : String := "PEERS_LIST"

def CONNECTION_REQUEST : String := "CONNECTION_REQUEST"

def CONNECTION_REQUEST_RECEIVED : String := "CONNECTION_REQUEST_RECEIVED"

def CONNECTION_RESPONSE : String := "CONNECTION_RESPONSE"

def CONNECTION_ACCEPTED : String := "CONNECTION_ACCEPTED"

def CONNECTION_REJECTED : String := "CONNECTION_REJECTED"

def SESSION_CREATED : String := "SESSION_CREATED"

def SEND_MESSAGE : String := "SEND_MESSAGE"

def MESSAGE_RECEIVED : String := "MESSAGE_RECEIVED"

def ERROR : String := "ERROR"

def PING : String := "PING"

def PONG : String := "PONG"

end WsEvents

-- ═══════════════════════════════════════════════════════════════════════
-- Identifier generation (common/utils id helpers, session service)
-- ═══════════════════════════════════════════════════════════════════════

/-- From `generateSessionId`: prefixes the uuid-v4 produced by the external
uuid library (passed in as `uuid`). -/
def generateSessionId (uuid : String) : String := "ses_" ++ uuid

/-- From `generateSocketId`. -/
def generateSocketId (uuid : String) : String := "sock_" ++ uuid

/-- From `createConnectionRequest`'s template literal
req_(Date.now())_(Math.random().toString(36).substring(2, 9)):
JavaScript string interpolation renders the integer `Date.now()` in
decimal, and the random suffix is passed in as `randSuffix`. -/
def generateRequestId (now : Nat) (randSuffix : String) : String :=
  "req_" ++ Nat.repr now ++ "_" ++ randSuffix

/-- Digit characters as produced by JavaScript `Number.prototype.toString(b)`:
0-9 then lowercase a-z. -/
def base36DigitChar (d : Nat) : Char :=
  if d < 10 then Char.ofNat (48 + d) else Char.ofNat (87 + d)

/-- Big-endian digit list of `n` in base `b`; `fuel` bounds recursion depth. -/
def natToBaseAux (b : Nat) : Nat → Nat → List Char → List Char
  | 0, _, acc => acc
  | fuel + 1, n, acc =>
    if n < b then base36DigitChar n :: acc
    else natToBaseAux b fuel (n / b) (base36DigitChar (n % b) :: acc)

/-- Written to match the spec's wording for identifier formats: the base-`b`
rendering of `n` with digits 0-9a-z, as `Number.prototype.toString(b)` yields
for integers. Fuel `n + 1` always suffices for a base of at least two. -/
def natToBase (b n : Nat) : String := String.mk (natToBaseAux b (n + 1) n [])

-- ═══════════════════════════════════════════════════════════════════════
-- Frames and side-effect actions emitted by the gateway
-- ═══════════════════════════════════════════════════════════════════════

/-- The profile object the gateway embeds in frames. -/
structure Profile where
  displayName : String
  role : PeerRole
  ide : IdeType
deriving DecidableEq

/-- One entry of a PEERS_LIST payload. -/
structure PeerListEntry where
  id : String
  profile : Profile
  status : PeerStatus
  connectionMode : ConnectionMode
deriving DecidableEq

/-- The data object of an outgoing frame, one constructor per payload shape.
`err` covers both ERROR and AUTH_FAILED payloads (both are code/message). -/
inductive OutData where
  | err (code message : String)
  | authSuccess (userId displayName email : String)
  | pong (timestamp : Nat)
  | peersList (peers : List PeerListEntry)
  | reqReceived (requestId fromId : String) (fromProfile : Option Profile)
  | connAccepted (requestId sessionId peerId : String) (peerProfile : Option Profile)
  | sessionCreatedData (sessionId peerId : String) (peerProfile : Option Profile)
  | connRejected (requestId targetId : String)
  | messageReceived (sessionId fromId : String) (content msgType correlationId : Option String)
      (timestamp : Nat)
deriving DecidableEq

/-- An outgoing frame, the JSON object { event, data }. -/
structure Frame where
  event : String
  data : OutData
deriving DecidableEq

/-- A socket-level side effect of a handler, recorded in program order. -/
inductive Action where
  | send (socketId : String) (frame : Frame)
  | closeSock (socketId : String) (code : Nat) (reason : String)
  | removePeerRecord (userId : String)
  | removeSocketRegistration (socketId : String)
  | addSocketRegistration (socketId : String)
deriving DecidableEq

/-- The gateway's `emit` helper: sends only when
`readyState === WebSocket.OPEN`. -/
def emitIf (isOpen : Bool) (socketId : String) (f : Frame) : List Action :=
  if isOpen then [Action.send socketId f] else []

/-- The gateway's `emitError` helper. -/
def emitErrorIf (isOpen : Bool) (socketId : String) (code message : String) : List Action :=
  emitIf isOpen socketId ⟨WsEvents.ERROR, OutData.err code message⟩

-- ═══════════════════════════════════════════════════════════════════════
-- PeerRegistryService (peer-registry service source)
-- ═══════════════════════════════════════════════════════════════════════

/-- The two maps of `PeerRegistryService`. -/
structure PeerRegistry where
  peersByUserId : List (String × RegisteredPeer)
  socketIdToUserId : List (String × String)
deriving DecidableEq

/-- From `registerPeer`: replaces any prior registration for the user (the
old socket index entry is dropped, the old session list is carried over).
`ipHash = some h` models a non-empty hash string (the hash helper always
yields 64 hex characters, so TS truthiness coincides with presence). -/
def registerPeer (r : PeerRegistry) (userId : String) (payload : PeerRegistrationPayload)
    (socketId : String) (ipHash : Option String) (networkId : Option String) (now : Nat) :
    PeerRegistry × RegisteredPeer :=
  let existingPeer := mapLookup r.peersByUserId userId
  let socketIdx :=
    match existingPeer with
    | some p => mapDelete r.socketIdToUserId p.socketId
    | none => r.socketIdToUserId
  let networkContext : Option NetworkContext :=
    match ipHash with
    | some h => some { publicIpHash := h, connectionMode := ConnectionMode.remote }
    | none => none
  let peer : RegisteredPeer :=
    { userId, socketId,
      displayName := payload.displayName,
      ide := payload.ide.getD IdeType.other,
      role := payload.role.getD PeerRole.guest,
      status := PeerStatus.online,
      sessionIds := match existingPeer with | some p => p.sessionIds | none => [],
      connectedAt := now, lastActivityAt := now,
      networkContext, networkId }
  ({ peersByUserId := mapSet r.peersByUserId userId peer,
     socketIdToUserId := mapSet socketIdx socketId userId }, peer)

/-- From `unregisterPeerByUserId`. -/
def unregisterPeerByUserId (r : PeerRegistry) (userId : String) : PeerRegistry × Bool :=
  match mapLookup r.peersByUserId userId with
  | none => (r, false)
  | some peer =>
    ({ peersByUserId := mapDelete r.peersByUserId userId,
       socketIdToUserId := mapDelete r.socketIdToUserId peer.socketId }, true)

/-- From `getPeerByUserId`; the TS `PeerLookupResult` record with
`found = !!peer` collapses to an `Option` (every caller checks
`found && peer`, i.e. `isSome`). -/
def getPeerByUserId (r : PeerRegistry) (userId : String) : Option RegisteredPeer :=
  mapLookup r.peersByUserId userId

/-- From `isPeerRegistered`. -/
def isPeerRegistered (r : PeerRegistry) (userId : String) : Bool :=
  mapHas r.peersByUserId userId

/-- From `addSessionToPeer` (idempotent append). -/
def addSessionToPeer (r : PeerRegistry) (userId sessionId : String) (now : Nat) :
    PeerRegistry × Bool :=
  match mapLookup r.peersByUserId userId with
  | none => (r, false)
  | some peer =>
    if peer.sessionIds.contains sessionId then (r, true)
    else
      let peer1 := { peer with
        sessionIds := peer.sessionIds ++ [sessionId]
        lastActivityAt := now }
      ({ r with peersByUserId := mapSet r.peersByUserId userId peer1 }, true)

/-- From `removeSessionFromPeer` (indexOf/splice removes the first
occurrence). -/
def removeSessionFromPeer (r : PeerRegistry) (userId sessionId : String) (now : Nat) :
    PeerRegistry × Bool :=
  match mapLookup r.peersByUserId userId with
  | none => (r, false)
  | some peer =>
    if peer.sessionIds.contains sessionId then
      let peer1 := { peer with
        sessionIds := peer.sessionIds.erase sessionId
        lastActivityAt := now }
      ({ r with peersByUserId := mapSet r.peersByUserId userId peer1 }, true)
    else (r, true)

/-- From `updatePeerActivity`. -/
def updatePeerActivity (r : PeerRegistry) (userId : String) (now : Nat) :
    PeerRegistry × Bool :=
  match mapLookup r.peersByUserId userId with
  | none => (r, false)
  | some peer =>
    let peer1 := { peer with lastActivityAt := now }
    ({ r with peersByUserId := mapSet r.peersByUserId userId peer1 }, true)

/-- From `getOnlinePeers`: registry values in insertion order, filtered to
status online. -/
def getOnlinePeers (r : PeerRegistry) : List RegisteredPeer :=
  (r.peersByUserId.map Prod.snd).filter (fun p => p.status == PeerStatus.online)

/-- From `getOnlinePeersInNetwork`: `(p.networkId ?? null) === networkId`
with a string argument is equality with `some networkId`. -/
def getOnlinePeersInNetwork (r : PeerRegistry) (networkId : String) : List RegisteredPeer :=
  (getOnlinePeers r).filter (fun p => p.networkId == some networkId)

-- ═══════════════════════════════════════════════════════════════════════
-- Combined mutable state: peer registry, SessionService's two maps,
-- MessagingService's socket registry
-- ═══════════════════════════════════════════════════════════════════════

/-- The process-wide registries the handlers read and write. -/
structure St where
  peers : PeerRegistry
  sessions : List (String × CollaborationSession)
  connectionRequests : List (String × ConnectionRequest)
  sockets : List (String × WsConn)
deriving DecidableEq

/-- `REQUEST_EXPIRY_MS` of the session service. -/
def REQUEST_EXPIRY_MS : Nat := 30000

/-- From `SessionService.createConnectionRequest`. -/
def createConnectionRequest (st : St) (fromUserId toUserId : String) (now : Nat)
    (randSuffix : String) : St × String :=
  let requestId := generateRequestId now randSuffix
  let request : ConnectionRequest := { requestId, fromUserId, toUserId, createdAt := now }
  ({ st with connectionRequests := mapSet st.connectionRequests requestId request }, requestId)

/-- From `SessionService.getConnectionRequest`: a hit older than the TTL is
evicted and reported absent. -/
def getConnectionRequest (st : St) (requestId : String) (now : Nat) :
    Option ConnectionRequest × St :=
  match mapLookup st.connectionRequests requestId with
  | none => (none, st)
  | some request =>
    if now - request.createdAt > REQUEST_EXPIRY_MS then
      (none, { st with connectionRequests := mapDelete st.connectionRequests requestId })
    else (some request, st)

/-- From `SessionService.removeConnectionRequest`. -/
def removeConnectionRequest (st : St) (requestId : String) : St :=
  { st with connectionRequests := mapDelete st.connectionRequests requestId }

/-- From `SessionService.cleanupExpiredRequests` (the 10s sweep body). -/
def cleanupExpiredRequests (st : St) (now : Nat) : St :=
  let keep := fun (e : String × ConnectionRequest) =>
    !(decide (now - e.2.createdAt > REQUEST_EXPIRY_MS))
  { st with connectionRequests := st.connectionRequests.filter keep }

/-- From `SessionService.createSessionForPeers`; `sidUuid` is the uuid-v4
drawn inside `generateSessionId`. -/
def createSessionForPeers (st : St) (user1Id user1SocketId user2Id user2SocketId : String)
    (sidUuid : String) (now : Nat) : St × CollaborationSession :=
  let sessionId := generateSessionId sidUuid
  let participant1 : SessionParticipant :=
    { userId := user1Id, socketId := user1SocketId, role := PeerRole.host,
      joinedAt := now, lastActivityAt := now }
  let participant2 : SessionParticipant :=
    { userId := user2Id, socketId := user2SocketId, role := PeerRole.guest,
      joinedAt := now, lastActivityAt := now }
  let session : CollaborationSession :=
    { sessionId, hostUserId := user1Id,
      participants := mapSet (mapSet [] user1Id participant1) user2Id participant2,
      status := SessionStatus.active, createdAt := now, lastActivityAt := now }
  let peers1 := (addSessionToPeer st.peers user1Id sessionId now).1
  let peers2 := (addSessionToPeer peers1 user2Id sessionId now).1
  ({ st with sessions := mapSet st.sessions sessionId session, peers := peers2 }, session)

/-- From `SessionService.getSession`. -/
def getSession (st : St) (sessionId : String) : Option CollaborationSession :=
  mapLookup st.sessions sessionId

/-- From `SessionService.isParticipant`. -/
def isParticipant (st : St) (sessionId userId : String) : Bool :=
  match getSession st sessionId with
  | some session => mapHas session.participants userId
  | none => false

/-- From `SessionService.getSessionParticipants`. -/
def getSessionParticipants (st : St) (sessionId : String) : List SessionParticipant :=
  match getSession st sessionId with
  | none => []
  | some session => session.participants.map Prod.snd

/-- From `SessionService.updateParticipantActivity`. -/
def updateParticipantActivity (st : St) (sessionId userId : String) (now : Nat) :
    St × Bool :=
  match mapLookup st.sessions sessionId with
  | none => (st, false)
  | some session =>
    match mapLookup session.participants userId with
    | none => (st, false)
    | some participant =>
      let participant1 := { participant with lastActivityAt := now }
      let session1 := { session with
        participants := mapSet session.participants userId participant1,
        lastActivityAt := now }
      ({ st with sessions := mapSet st.sessions sessionId session1 }, true)

/-- From `SessionService.endSession`: drops the session id from every
remaining participant's peer record, then deletes the session (the
transient `status = ENDED` write precedes the delete and is not
observable afterwards). -/
def endSession (st : St) (sessionId : String) (now : Nat) : St × Bool :=
  match mapLookup st.sessions sessionId with
  | none => (st, false)
  | some session =>
    let peers := session.participants.foldl
      (fun ps e => (removeSessionFromPeer ps e.1 sessionId now).1) st.peers
    ({ st with peers, sessions := mapDelete st.sessions sessionId }, true)

/-- From `SessionService.removeParticipant`: removes the user, then ends
the session when it became empty or the departing user is the host. -/
def removeParticipant (st : St) (sessionId userId : String) (now : Nat) : St × Bool :=
  match mapLookup st.sessions sessionId with
  | none => (st, false)
  | some session =>
    if mapHas session.participants userId then
      let session1 := { session with
        participants := mapDelete session.participants userId, lastActivityAt := now }
      let st1 := { st with
        sessions := mapSet st.sessions sessionId session1,
        peers := (removeSessionFromPeer st.peers userId sessionId now).1 }
      if session1.participants.length == 0 || userId == session.hostUserId then
        ((endSession st1 sessionId now).1, true)
      else (st1, true)
    else (st, false)

/-- From `SessionService.handleUserDisconnect`: remove the user from every
session containing them, then purge their pending requests. Iterating the
live map equals iterating the initial snapshot because `removeParticipant`
for one session id never touches another session's participants. -/
def handleUserDisconnect (st : St) (userId : String) (now : Nat) : St :=
  let sids := (st.sessions.filter (fun e => mapHas e.2.participants userId)).map Prod.fst
  let st1 := sids.foldl (fun s sid => (removeParticipant s sid userId now).1) st
  let keep := fun (e : String × ConnectionRequest) =>
    !(e.2.fromUserId == userId || e.2.toUserId == userId)
  { st1 with connectionRequests := st1.connectionRequests.filter keep }

/-- From `MessagingService.registerSocket`. -/
def registerSocket (st : St) (socketId : String) (conn : WsConn) : St :=
  { st with sockets := mapSet st.sockets socketId conn }

/-- From `MessagingService.unregisterSocket`. -/
def unregisterSocket (st : St) (socketId : String) : St :=
  { st with sockets := mapDelete st.sockets socketId }

/-- From `MessagingService.getSocket`. -/
def getSocket (st : St) (socketId : String) : Option WsConn :=
  mapLookup st.sockets socketId

-- ═══════════════════════════════════════════════════════════════════════
-- AuthService (auth service source)
-- ═══════════════════════════════════════════════════════════════════════

/-- The JWT payload fields `validateToken` reads, from `JwtPayload`. -/
structure JwtPayload where
  sub : String
  email : String
  name : String
  roles : Option (List String)
deriving DecidableEq

/-- From `TokenValidationResult`. -/
structure TokenValidationResult where
  valid : Bool
  user : Option AuthenticatedUser
  error : Option String
deriving DecidableEq

instance [DecidableEq ε] [DecidableEq α] : DecidableEq (Except ε α) := fun x y => by
  cases x <;> cases y
  case error.error a b =>
    exact if h : a = b then isTrue (by rw [h]) else isFalse (by simp [h])
  case error.ok a b => exact isFalse (by simp)
  case ok.error a b => exact isFalse (by simp)
  case ok.ok a b =>
    exact if h : a = b then isTrue (by rw [h]) else isFalse (by simp [h])

/-- Whether `pat` occurs at the head of `s`. -/
def listStartsWith : List Char → List Char → Bool
  | _, [] => true
  | [], _ :: _ => false
  | a :: s, b :: p => a == b && listStartsWith s p

/-- Whether `pat` occurs somewhere inside `s`. -/
def listContainsSeq (s pat : List Char) : Bool :=
  match s with
  | [] => pat.isEmpty
  | _ :: t => listStartsWith s pat || listContainsSeq t pat

/-- JavaScript `String.prototype.includes`. -/
def strContains (s pat : String) : Bool :=
  listContainsSeq s.toList pat.toList

/-- From `AuthService.validateToken`: the jwt library's verification outcome
is the input (`Except.error m` models a thrown verification error with
message `m`). A message containing "expired" yields the expired message,
everything else the invalid message — the service reports messages only,
never error codes. -/
def validateToken (outcome : Except String JwtPayload) : TokenValidationResult :=
  match outcome with
  | Except.ok payload =>
    let user : AuthenticatedUser :=
      { userId := payload.sub
        email := payload.email
        displayName := payload.name
        roles := payload.roles.getD []
        provider := none }
    { valid := true, user := some user, error := none }
  | Except.error msg =>
    if strContains msg "expired" then
      { valid := false, user := none, error := some ErrorMessages.authTokenExpired }
    else
      { valid := false, user := none, error := some ErrorMessages.authTokenInvalid }

/-- From `AuthService.validateWsToken`: Bearer stripping only changes what
is verified, which the verification `outcome` already encodes; invalid
results are thrown (`Except.error`) with the stored message. The
empty-token throw cannot trigger from the gateway, which checks the token
first. -/
def validateWsToken (outcome : Except String JwtPayload) :
    Except String AuthenticatedUser :=
  let result := validateToken outcome
  match result.valid, result.user with
  | true, some u => Except.ok u
  | _, _ => Except.error (result.error.getD ErrorMessages.authTokenInvalid)

-- ═══════════════════════════════════════════════════════════════════════
-- Gateway: message routing (handleMessage)
-- ═══════════════════════════════════════════════════════════════════════

/-- Identifier of a post-authentication handler in `handleMessage`'s switch. -/
inductive HandlerId where
  | peerRegister | discoverPeers | connectionRequest | connectionResponse | sendMessage | ping
deriving DecidableEq

/-- Routing decision of `handleMessage` for a parsed frame. -/
inductive MsgRoute where
  | toAuthHandler
  | authRequired
  | toHandler (h : HandlerId)
  | unknownEvent
deriving DecidableEq

/-- From `handleMessage` (after JSON parsing): AUTH is dispatched before
the authentication gate; every other event on an unauthenticated socket is
refused; authenticated traffic is dispatched by event name. -/
def routeMessage (isAuthenticated : Bool) (event : String) : MsgRoute :=
  if event == WsEvents.AUTH then MsgRoute.toAuthHandler
  else if !isAuthenticated then MsgRoute.authRequired
  else if event == WsEvents.PEER_REGISTER then MsgRoute.toHandler HandlerId.peerRegister
  else if event == WsEvents.DISCOVER_PEERS then MsgRoute.toHandler HandlerId.discoverPeers
  else if event == WsEvents.CONNECTION_REQUEST then MsgRoute.toHandler HandlerId.connectionRequest
  else if event == WsEvents.CONNECTION_RESPONSE then MsgRoute.toHandler HandlerId.connectionResponse
  else if event == WsEvents.SEND_MESSAGE then MsgRoute.toHandler HandlerId.sendMessage
  else if event == WsEvents.PING then MsgRoute.toHandler HandlerId.ping
  else MsgRoute.unknownEvent

/-- The actions `handleMessage` performs when the authentication gate
refuses a frame. -/
def authGateActions (sock : SocketState) (selfOpen : Bool) : List Action :=
  emitErrorIf selfOpen sock.socketId ErrorCodes.WS_NOT_AUTHENTICATED "Must authenticate first"

-- ═══════════════════════════════════════════════════════════════════════
-- Gateway: event handlers
-- ═══════════════════════════════════════════════════════════════════════

/-- The displayName/role/ide projection the gateway repeats when building
frame payloads. -/
def profileOf (p : RegisteredPeer) : Profile :=
  { displayName := p.displayName, role := p.role, ide := p.ide }

/-- One PEERS_LIST entry as `handleDiscoverPeers` builds it: id, profile,
status, and the connection mode stored on the peer record defaulting to
REMOTE. -/
def peerListEntryOf (p : RegisteredPeer) : PeerListEntry :=
  { id := p.userId
    profile := profileOf p
    status := p.status
    connectionMode :=
      (p.networkContext.map (fun c => c.connectionMode)).getD ConnectionMode.remote }

/-- Written from the claim's words for DISCOVER_PEERS: exactly the online
peers whose network id equals the caller's network id, excluding the
caller, each entry carrying profile, status and a connection mode that
defaults to REMOTE. Compared against `handleDiscoverPeers`. -/
def discoverSpecEntries (r : PeerRegistry) (selfId networkId : String) : List PeerListEntry :=
  ((r.peersByUserId.map Prod.snd).filter
      (fun p => p.status == PeerStatus.online && p.networkId == some networkId
        && !(p.userId == selfId))).map peerListEntryOf

/-- From `handleAuth`. Collaborator results are inputs: `authResult` is the
outcome of `validateWsToken`, `networkOutcome` the outcome of
`networkService.getActiveNetworkId` (`none` models a thrown lookup error,
which the catch turns into a null network id). Returns updated registries,
updated socket state, and the side effects in program order. -/
def handleAuth (st : St) (sock : SocketState) (selfOpen : Bool)
    (token : Option String) (authResult : Except String AuthenticatedUser)
    (networkOutcome : Option (Option String)) : St × SocketState × List Action :=
  match token with
  | none =>
    let frame : Frame := ⟨WsEvents.AUTH_FAILED,
      OutData.err ErrorCodes.AUTH_TOKEN_MISSING ErrorMessages.authTokenMissing⟩
    (st, sock, emitIf selfOpen sock.socketId frame
      ++ [Action.closeSock sock.socketId 4001 "No token provided"])
  | some _ =>
    match authResult with
    | Except.error errorMessage =>
      let frame : Frame := ⟨WsEvents.AUTH_FAILED,
        OutData.err ErrorCodes.AUTH_TOKEN_INVALID errorMessage⟩
      (st, sock, emitIf selfOpen sock.socketId frame
        ++ [Action.closeSock sock.socketId 4001 "Authentication failed"])
    | Except.ok user =>
      let (st1, acts1) :=
        if isPeerRegistered st.peers user.userId then
          match getPeerByUserId st.peers user.userId with
          | some existingPeer =>
            let closeActs :=
              match getSocket st existingPeer.socketId with
              | some oldConn =>
                emitErrorIf oldConn.isOpen existingPeer.socketId
                    ErrorCodes.PEER_ALREADY_CONNECTED
                    "New connection established from another client"
                  ++ [Action.closeSock existingPeer.socketId 4002 "Superseded by new connection"]
              | none => []
            let st2 := { st with peers := (unregisterPeerByUserId st.peers user.userId).1 }
            let st3 := unregisterSocket st2 existingPeer.socketId
            (st3, closeActs ++ [Action.removePeerRecord user.userId,
              Action.removeSocketRegistration existingPeer.socketId])
          | none => (st, ([] : List Action))
        else (st, ([] : List Action))
      let sock1 := { sock with
        isAuthenticated := true
        user := some user
        networkId := match networkOutcome with | some nid => nid | none => none }
      let st4 := registerSocket st1 sock.socketId { isOpen := selfOpen }
      let successFrame : Frame := ⟨WsEvents.AUTH_SUCCESS,
        OutData.authSuccess user.userId user.displayName user.email⟩
      (st4, sock1, acts1 ++ [Action.addSocketRegistration sock.socketId]
        ++ emitIf selfOpen sock.socketId successFrame)

/-- From `handleDiscoverPeers`: registration gate, empty list for a null
network id, otherwise the same-network online peers minus self, each with
profile, status and the stored connection mode defaulting to REMOTE.
Client-side filters in the payload are ignored by design. The source's
non-null `user!` assertion is modelled by returning no effects when no
user is attached (unreachable for a registered socket). -/
def handleDiscoverPeers (st : St) (sock : SocketState) (selfOpen : Bool) :
    St × List Action :=
  if !sock.isRegistered then
    (st, emitErrorIf selfOpen sock.socketId ErrorCodes.PEER_NOT_REGISTERED "Must register first")
  else
    match sock.user with
    | none => (st, [])
    | some user =>
      match sock.networkId with
      | none =>
        (st, emitIf selfOpen sock.socketId ⟨WsEvents.PEERS_LIST, OutData.peersList []⟩)
      | some networkId =>
        let peers := getOnlinePeersInNetwork st.peers networkId
        let peerList := (peers.filter (fun p => !(p.userId == user.userId))).map peerListEntryOf
        (st, emitIf selfOpen sock.socketId ⟨WsEvents.PEERS_LIST, OutData.peersList peerList⟩)

/-- From `handleConnectionRequest`; `targetId` is `data?.targetId` (the
falsy check also catches an empty string), `now` and `randSuffix` feed
request-id generation. -/
def handleConnectionRequest (st : St) (sock : SocketState) (selfOpen : Bool)
    (targetId : Option String) (now : Nat) (randSuffix : String) : St × List Action :=
  if !sock.isRegistered then
    (st, emitErrorIf selfOpen sock.socketId ErrorCodes.PEER_NOT_REGISTERED "Must register first")
  else
    match sock.user with
    | none => (st, [])
    | some user =>
      let fromUserId := user.userId
      let fromNetworkId := sock.networkId
      match targetId with
      | none =>
        (st, emitErrorIf selfOpen sock.socketId ErrorCodes.VALIDATION_FAILED "targetId is required")
      | some toUserId =>
        if toUserId.isEmpty then
          (st, emitErrorIf selfOpen sock.socketId ErrorCodes.VALIDATION_FAILED "targetId is required")
        else
          match getPeerByUserId st.peers toUserId with
          | none =>
            (st, emitErrorIf selfOpen sock.socketId ErrorCodes.PEER_NOT_FOUND "Target peer not found")
          | some targetPeer =>
            if !(fromNetworkId == targetPeer.networkId) then
              (st, emitErrorIf selfOpen sock.socketId ErrorCodes.PEER_NOT_IN_SAME_NETWORK
                "Peer is not in your network")
            else
              match getSocket st targetPeer.socketId with
              | none =>
                (st, emitErrorIf selfOpen sock.socketId ErrorCodes.MESSAGE_TARGET_OFFLINE
                  "Target peer offline")
              | some targetConn =>
                let fromPeer := getPeerByUserId st.peers fromUserId
                let (st1, requestId) := createConnectionRequest st fromUserId toUserId now randSuffix
                let frame : Frame := ⟨WsEvents.CONNECTION_REQUEST_RECEIVED,
                  OutData.reqReceived requestId fromUserId (fromPeer.map profileOf)⟩
                (st1, emitIf targetConn.isOpen targetPeer.socketId frame)

/-- From `handleConnectionResponse`; `sidUuid` is the uuid drawn if a
session gets created. -/
def handleConnectionResponse (st : St) (sock : SocketState) (selfOpen : Bool)
    (requestId : Option String) (accepted : Option Bool) (sidUuid : String) (now : Nat) :
    St × List Action :=
  if !sock.isRegistered then
    (st, emitErrorIf selfOpen sock.socketId ErrorCodes.PEER_NOT_REGISTERED "Must register first")
  else
    match sock.user with
    | none => (st, [])
    | some user =>
      let responderId := user.userId
      match requestId, accepted with
      | some rid, some acc =>
        if rid.isEmpty then
          (st, emitErrorIf selfOpen sock.socketId ErrorCodes.VALIDATION_FAILED
            "requestId and accepted required")
        else
          match getConnectionRequest st rid now with
          | (none, st1) =>
            (st1, emitErrorIf selfOpen sock.socketId ErrorCodes.CONNECTION_REQUEST_NOT_FOUND
              "Request not found or expired")
          | (some request, st1) =>
            if !(request.toUserId == responderId) then
              (st1, emitErrorIf selfOpen sock.socketId ErrorCodes.CONNECTION_REQUEST_UNAUTHORIZED
                "Not authorized")
            else
              let st2 := removeConnectionRequest st1 rid
              match getPeerByUserId st2.peers request.fromUserId with
              | none =>
                (st2, emitErrorIf selfOpen sock.socketId ErrorCodes.PEER_NOT_FOUND
                  "Requester no longer online")
              | some requesterPeer =>
                match getSocket st2 requesterPeer.socketId with
                | none =>
                  (st2, emitErrorIf selfOpen sock.socketId ErrorCodes.MESSAGE_TARGET_OFFLINE
                    "Requester offline")
                | some requesterConn =>
                  if acc then
                    let (st3, session) := createSessionForPeers st2 request.fromUserId
                      requesterPeer.socketId responderId sock.socketId sidUuid now
                    let responderPeer := getPeerByUserId st3.peers responderId
                    let acceptedFrame : Frame := ⟨WsEvents.CONNECTION_ACCEPTED,
                      OutData.connAccepted rid session.sessionId responderId
                        (responderPeer.map profileOf)⟩
                    let createdFrame : Frame := ⟨WsEvents.SESSION_CREATED,
                      OutData.sessionCreatedData session.sessionId request.fromUserId
                        (some (profileOf requesterPeer))⟩
                    (st3, emitIf requesterConn.isOpen requesterPeer.socketId acceptedFrame
                      ++ emitIf selfOpen sock.socketId createdFrame)
                  else
                    let rejectedFrame : Frame := ⟨WsEvents.CONNECTION_REJECTED,
                      OutData.connRejected rid responderId⟩
                    (st2, emitIf requesterConn.isOpen requesterPeer.socketId rejectedFrame)
      | _, _ =>
        (st, emitErrorIf selfOpen sock.socketId ErrorCodes.VALIDATION_FAILED
          "requestId and accepted required")

/-- From `handleSendMessage`. `content`, `type` and `correlationId` are
opaque payload values carried through unchanged. -/
def handleSendMessage (st : St) (sock : SocketState) (selfOpen : Bool)
    (sessionId content msgType correlationId : Option String) (now : Nat) :
    St × List Action :=
  if !sock.isRegistered then
    (st, emitErrorIf selfOpen sock.socketId ErrorCodes.PEER_NOT_REGISTERED "Must register first")
  else
    match sock.user with
    | none => (st, [])
    | some user =>
      let senderId := user.userId
      match sessionId with
      | none =>
        (st, emitErrorIf selfOpen sock.socketId ErrorCodes.VALIDATION_FAILED "sessionId is required")
      | some sid =>
        if sid.isEmpty then
          (st, emitErrorIf selfOpen sock.socketId ErrorCodes.VALIDATION_FAILED "sessionId is required")
        else
          match getSession st sid with
          | none =>
            (st, emitErrorIf selfOpen sock.socketId ErrorCodes.SESSION_NOT_FOUND "Session not found")
          | some _session =>
            if !(isParticipant st sid senderId) then
              (st, emitErrorIf selfOpen sock.socketId ErrorCodes.SESSION_NOT_PARTICIPANT
                "Not a session participant")
            else
              let participants := getSessionParticipants st sid
              let sendTo := fun (acts : List Action) (p : SessionParticipant) =>
                if p.userId == senderId then acts
                else
                  match getSocket st p.socketId with
                  | some conn =>
                    if conn.isOpen then
                      acts ++ [Action.send p.socketId ⟨WsEvents.MESSAGE_RECEIVED,
                        OutData.messageReceived sid senderId content msgType correlationId now⟩]
                    else acts
                  | none => acts
              let acts := participants.foldl sendTo []
              ((updateParticipantActivity st sid senderId now).1, acts)

/-- From `handlePing`: mark the connection alive, update peer activity when
a user is attached, emit PONG with the server clock. -/
def handlePing (st : St) (sock : SocketState) (selfOpen : Bool) (now : Nat) :
    St × SocketState × List Action :=
  let sock1 := { sock with isAlive := true }
  let st1 :=
    match sock.user with
    | some user => { st with peers := (updatePeerActivity st.peers user.userId now).1 }
    | none => st
  (st1, sock1, emitIf selfOpen sock.socketId ⟨WsEvents.PONG, OutData.pong now⟩)

-- ═══════════════════════════════════════════════════════════════════════
-- Registry operations quantified over by the cross-registry invariant
-- ═══════════════════════════════════════════════════════════════════════

/-- The registry operations the invariant claim ranges over: session
creation, participant removal, session end, user disconnect, peer
(re-)registration. -/
inductive RegOp where
  | createSession (user1Id user1SocketId user2Id user2SocketId sidUuid : String) (now : Nat)
  | removeParticipantOp (sessionId userId : String) (now : Nat)
  | endSessionOp (sessionId : String) (now : Nat)
  | userDisconnect (userId : String) (now : Nat)
  | registerPeerOp (userId : String) (payload : PeerRegistrationPayload) (socketId : String)
      (ipHash : Option String) (networkId : Option String) (now : Nat)
deriving DecidableEq

/-- State effect of a registry operation (the corresponding service
method's state part). -/
def applyRegOp (st : St) : RegOp → St
  | RegOp.createSession u1 s1 u2 s2 uuid now => (createSessionForPeers st u1 s1 u2 s2 uuid now).1
  | RegOp.removeParticipantOp sid uid now => (removeParticipant st sid uid now).1
  | RegOp.endSessionOp sid now => (endSession st sid now).1
  | RegOp.userDisconnect uid now => handleUserDisconnect st uid now
  | RegOp.registerPeerOp uid payload sockId ipHash netId now =>
      { st with peers := (registerPeer st.peers uid payload sockId ipHash netId now).1 }

/-- Session creation presupposes both users are registered peers — the
gateway checks the requester's peer record and the responder's registration
before calling `createSessionForPeers`. The other operations are total. -/
def regOpPre (st : St) : RegOp → Prop
  | RegOp.createSession u1 _ u2 _ _ _ =>
      (mapLookup st.peers.peersByUserId u1).isSome = true ∧
      (mapLookup st.peers.peersByUserId u2).isSome = true
  | _ => True

instance (st : St) (op : RegOp) : Decidable (regOpPre st op) := by
  cases op <;> simp only [regOpPre] <;> infer_instance

/-- Whether a peer record exists for `uid` whose session list contains
`sid` — the right-hand side of invariant I3. -/
def peerHasSession (peers : List (String × RegisteredPeer)) (uid sid : String) : Bool :=
  match mapLookup peers uid with
  | some p => p.sessionIds.contains sid
  | none => false

/-- Invariant I3 of the spec: for every session and every participant user
of it, a peer record exists for that user whose session list contains the
session's id. Entries are guarded by a lookup so that only bindings
observable through the JS `Map` interface are constrained. -/
def InvariantI3 (st : St) : Prop :=
  ∀ e ∈ st.sessions, mapLookup st.sessions e.1 = some e.2 →
    ∀ q ∈ e.2.participants, mapLookup e.2.participants q.1 = some q.2 →
      peerHasSession st.peers.peersByUserId q.1 e.1 = true

instance (st : St) : Decidable (InvariantI3 st) := by
  unfold InvariantI3
  infer_instance

-- ═══════════════════════════════════════════════════════════════════════
-- Theorems: association-list map lemmas
-- ═══════════════════════════════════════════════════════════════════════

@[simp] theorem mapLookup_nil (k : String) :
    mapLookup ([] : List (String × α)) k = none := rfl

@[simp] theorem mapLookup_cons (e : String × α) (t : List (String × α)) (k : String) :
    mapLookup (e :: t) k = if e.1 == k then some e.2 else mapLookup t k := rfl

theorem mapLookup_set_self (m : List (String × α)) (k : String) (v : α) :
    mapLookup (mapSet m k v) k = some v := by
  induction m with
  | nil => simp [mapSet]
  | cons e t ih =>
    obtain ⟨a, b⟩ := e
    cases he : a == k
    · simpa [mapSet, he] using ih
    · simp [mapSet, he]

theorem mapLookup_set_ne (m : List (String × α)) (k k' : String) (v : α)
    (h : (k == k') = false) :
    mapLookup (mapSet m k v) k' = mapLookup m k' := by
  induction m with
  | nil => simp [mapSet, h]
  | cons e t ih =>
    obtain ⟨a, b⟩ := e
    cases he : a == k
    · simp [mapSet, he, ih]
    · have ha : a = k := eq_of_beq he
      subst ha
      simp [mapSet, h]

theorem mem_mapSet (m : List (String × α)) (k : String) (v : α) (e : String × α)
    (h : e ∈ mapSet m k v) : e ∈ m ∨ e = (k, v) := by
  induction m with
  | nil =>
    simp only [mapSet, List.mem_singleton] at h
    exact Or.inr h
  | cons x t ih =>
    obtain ⟨a, b⟩ := x
    cases hx : a == k
    · simp only [mapSet, hx, Bool.false_eq_true, if_false, List.mem_cons] at h
      rcases h with h1 | h1
      · exact Or.inl (h1 ▸ List.mem_cons_self _ t)
      · rcases ih h1 with h2 | h2
        · exact Or.inl (List.mem_cons_of_mem _ h2)
        · exact Or.inr h2
    · simp only [mapSet, hx, if_true, List.mem_cons] at h
      rcases h with h1 | h1
      · exact Or.inr h1
      · exact Or.inl (List.mem_cons_of_mem _ h1)

theorem mapLookup_delete_self (m : List (String × α)) (k : String) :
    mapLookup (mapDelete m k) k = none := by
  induction m with
  | nil => rfl
  | cons e t ih =>
    obtain ⟨a, b⟩ := e
    cases he : a == k
    · simpa [mapDelete, he] using ih
    · simpa [mapDelete, he] using ih

theorem mapLookup_delete_ne (m : List (String × α)) (k k' : String)
    (h : (k == k') = false) :
    mapLookup (mapDelete m k) k' = mapLookup m k' := by
  induction m with
  | nil => rfl
  | cons e t ih =>
    obtain ⟨a, b⟩ := e
    cases he : a == k
    · simp [mapDelete, he] at ih ⊢
      cases he' : a == k' <;> simp [he', ih]
    · have ha : a = k := eq_of_beq he
      subst ha
      simp [mapDelete, h] at ih ⊢
      exact ih

theorem mem_mapDelete (m : List (String × α)) (k : String) (e : String × α)
    (h : e ∈ mapDelete m k) : e ∈ m ∧ (e.1 == k) = false := by
  unfold mapDelete at h
  have hmf := List.mem_filter.1 h
  exact ⟨hmf.1, by simpa using hmf.2⟩

-- ═══════════════════════════════════════════════════════════════════════
-- Theorems: decimal rendering of numbers (identifier formats)
-- ═══════════════════════════════════════════════════════════════════════

theorem digitChar_eq_base36DigitChar (d : Nat) (h : d < 10) :
    Nat.digitChar d = base36DigitChar d := by
  interval_cases d <;> decide

theorem natToBaseAux_spec (b : Nat) (hb : 2 ≤ b) :
    ∀ fuel n acc, 0 < fuel → n < b ^ fuel →
      natToBaseAux b fuel n acc =
        (if n = 0 then [base36DigitChar 0]
         else ((Nat.digits b n).map base36DigitChar).reverse) ++ acc := by
  intro fuel
  induction fuel with
  | zero => intro n acc h0 _; omega
  | succ fuel ih =>
    intro n acc _ hlt
    by_cases hnb : n < b
    · by_cases hn0 : n = 0
      · subst hn0
        simp [natToBaseAux, hnb]
      · have hmod : n % b = n := Nat.mod_eq_of_lt hnb
        have hdiv0 : n / b = 0 := Nat.div_eq_of_lt hnb
        rw [if_neg hn0, Nat.digits_def' (show 1 < b by omega) (Nat.pos_of_ne_zero hn0),
          hmod, hdiv0, Nat.digits_zero]
        simp [natToBaseAux, hnb]
    · have hn0 : n ≠ 0 := by omega
      have hbpos : 0 < b := by omega
      have hfuel : 0 < fuel := by
        rcases Nat.eq_zero_or_pos fuel with hf | hf
        · subst hf; rw [pow_one] at hlt; omega
        · exact hf
      have hdivlt : n / b < b ^ fuel := by
        have h2 : n < b * b ^ fuel := by
          rw [← pow_succ']
          exact hlt
        exact Nat.div_lt_of_lt_mul h2
      have hdivne : n / b ≠ 0 := by
        have := Nat.div_pos (Nat.le_of_not_lt hnb) hbpos
        omega
      simp only [natToBaseAux, if_neg hnb]
      rw [ih (n / b) (base36DigitChar (n % b) :: acc) hfuel hdivlt]
      rw [if_neg hdivne, if_neg hn0]
      rw [Nat.digits_def' (show 1 < b by omega) (Nat.pos_of_ne_zero hn0)]
      simp

theorem toDigitsCore_spec (b : Nat) (hb : 2 ≤ b) :
    ∀ fuel n acc, 0 < fuel → n < b ^ fuel →
      Nat.toDigitsCore b fuel n acc =
        (if n = 0 then [Nat.digitChar 0]
         else ((Nat.digits b n).map Nat.digitChar).reverse) ++ acc := by
  intro fuel
  induction fuel with
  | zero => intro n acc h0 _; omega
  | succ fuel ih =>
    intro n acc _ hlt
    by_cases hnb : n < b
    · have hdiv0 : n / b = 0 := Nat.div_eq_of_lt hnb
      by_cases hn0 : n = 0
      · subst hn0
        simp [Nat.toDigitsCore, hdiv0]
      · have hmod : n % b = n := Nat.mod_eq_of_lt hnb
        rw [if_neg hn0, Nat.digits_def' (show 1 < b by omega) (Nat.pos_of_ne_zero hn0),
          hmod, hdiv0, Nat.digits_zero]
        simp [Nat.toDigitsCore, hdiv0, hmod]
    · have hn0 : n ≠ 0 := by omega
      have hbpos : 0 < b := by omega
      have hfuel : 0 < fuel := by
        rcases Nat.eq_zero_or_pos fuel with hf | hf
        · subst hf; rw [pow_one] at hlt; omega
        · exact hf
      have hdivlt : n / b < b ^ fuel := by
        have h2 : n < b * b ^ fuel := by
          rw [← pow_succ']
          exact hlt
        exact Nat.div_lt_of_lt_mul h2
      have hdivne : n / b ≠ 0 := by
        have := Nat.div_pos (Nat.le_of_not_lt hnb) hbpos
        omega
      simp only [Nat.toDigitsCore, if_neg hdivne]
      rw [ih (n / b) (Nat.digitChar (n % b) :: acc) hfuel hdivlt]
      rw [if_neg hdivne, if_neg hn0]
      rw [Nat.digits_def' (show 1 < b by omega) (Nat.pos_of_ne_zero hn0)]
      simp

/-- The spec-side base renderer agrees with the source-side decimal
rendering `Nat.repr` (JavaScript number interpolation) at base ten. -/
theorem natToBase_ten_eq_repr (n : Nat) : natToBase 10 n = Nat.repr n := by
  have hn : n < 10 ^ (n + 1) := by
    calc n < 10 ^ n := Nat.lt_pow_self (by omega) n
    _ ≤ 10 ^ (n + 1) := Nat.pow_le_pow_right (by omega) (Nat.le_succ n)
  have h1 := natToBaseAux_spec 10 (by omega) (n + 1) n [] (Nat.succ_pos n) hn
  have h2 := toDigitsCore_spec 10 (by omega) (n + 1) n [] (Nat.succ_pos n) hn
  unfold natToBase Nat.repr Nat.toDigits
  rw [h1, h2]
  by_cases hn0 : n = 0
  · subst hn0
    decide
  · have hd : ∀ d ∈ Nat.digits 10 n, Nat.digitChar d = base36DigitChar d := by
      intro d hdmem
      exact digitChar_eq_base36DigitChar d (Nat.digits_lt_base (by omega) hdmem)
    rw [if_neg hn0, if_neg hn0, List.append_nil, List.append_nil, List.map_congr_left hd]
    rfl

-- ═══════════════════════════════════════════════════════════════════════
-- C9: identifier formats
-- ═══════════════════════════════════════════════════════════════════════

/-- C9, counterexample: the claim prescribes a base-36 rendering of the
creation timestamp inside every requestId; at the concrete creation time
1760140800000 ms with random suffix "abc1234", the id the code generates
differs from the base-36 form the claim prescribes. -/
theorem claim9_base36_requestId_counterexample :
    generateRequestId 1760140800000 "abc1234" ≠
      "req_" ++ natToBase 36 1760140800000 ++ "_" ++ "abc1234" := by
  decide

/-- C9 (amended): sessionId is `ses_` plus the uuid-v4 from the uuid
library and socketId is `sock_` plus such a uuid, but requestId renders
its creation timestamp in decimal, not base 36:
req_(decimal timestamp)_(random suffix). -/
theorem claim9_amended_identifier_formats (uuid suffix : String) (now : Nat) :
    generateSessionId uuid = "ses_" ++ uuid ∧
    generateSocketId uuid = "sock_" ++ uuid ∧
    generateRequestId now suffix = "req_" ++ natToBase 10 now ++ "_" ++ suffix := by
  refine ⟨rfl, rfl, ?_⟩
  rw [natToBase_ten_eq_repr]
  rfl

-- ═══════════════════════════════════════════════════════════════════════
-- C3: events accepted before authentication
-- ═══════════════════════════════════════════════════════════════════════

/-- C3, counterexample: on an unauthenticated (CONNECTED) socket a PING
frame is not routed to the ping handler — the dispatcher refuses it at the
authentication gate and the gate's emitted frame is the ERR_5005 error. So
PING is rejected before authentication, not processed, and no PONG is
emitted. -/
theorem claim3_ping_preauth_counterexample :
    routeMessage false WsEvents.PING = MsgRoute.authRequired ∧
    routeMessage false WsEvents.PING ≠ MsgRoute.toHandler HandlerId.ping ∧
    authGateActions ⟨"sock_c3", false, false, none, true, 0, none, none⟩ true =
      [Action.send "sock_c3" ⟨WsEvents.ERROR,
        OutData.err ErrorCodes.WS_NOT_AUTHENTICATED "Must authenticate first"⟩] := by
  exact ⟨by decide, by decide, by decide⟩

/-- C3 (amended): on an unauthenticated (CONNECTED) socket only AUTH is
accepted; every other event — PING included — is refused at the gate,
which emits the ERR_5005 "must authenticate" error frame. -/
theorem claim3_amended_auth_gate (event : String) (sock : SocketState) (isOpen : Bool)
    (h : event ≠ WsEvents.AUTH) :
    routeMessage false event = MsgRoute.authRequired ∧
    authGateActions sock isOpen =
      emitIf isOpen sock.socketId ⟨WsEvents.ERROR,
        OutData.err ErrorCodes.WS_NOT_AUTHENTICATED "Must authenticate first"⟩ := by
  constructor
  · unfold routeMessage
    rw [if_neg (by simpa using h)]
    simp
  · rfl

/-- C3 witness: the amended gate theorem at the concrete PING event. -/
theorem claim3_amended_auth_gate_witness :
    routeMessage false WsEvents.PING = MsgRoute.authRequired ∧
    authGateActions ⟨"sock_w3", false, false, none, true, 0, none, none⟩ true =
      emitIf true (SocketState.socketId ⟨"sock_w3", false, false, none, true, 0, none, none⟩)
        ⟨WsEvents.ERROR,
          OutData.err ErrorCodes.WS_NOT_AUTHENTICATED "Must authenticate first"⟩ :=
  claim3_amended_auth_gate WsEvents.PING
    ⟨"sock_w3", false, false, none, true, 0, none, none⟩ true (by decide)

-- ═══════════════════════════════════════════════════════════════════════
-- C5: AUTH failure codes
-- ═══════════════════════════════════════════════════════════════════════

/-- C5, counterexample: for an expired token (jwt verification throws a
message containing "expired") the AUTH handler emits AUTH_FAILED carrying
code ERR_1002 — not ERR_1003 as the claim states — and then closes with
4001; the expiry shows up only in the message text. -/
theorem claim5_expired_code_counterexample :
    (handleAuth ⟨⟨[], []⟩, [], [], []⟩ ⟨"sock_c5", false, false, none, true, 0, none, none⟩
        true (some "Bearer tok") (validateWsToken (Except.error "jwt expired"))
        (some none)).2.2 =
      [Action.send "sock_c5" ⟨WsEvents.AUTH_FAILED,
         OutData.err ErrorCodes.AUTH_TOKEN_INVALID ErrorMessages.authTokenExpired⟩,
       Action.closeSock "sock_c5" 4001 "Authentication failed"] ∧
    ErrorCodes.AUTH_TOKEN_INVALID ≠ ErrorCodes.AUTH_TOKEN_EXPIRED := by
  exact ⟨by decide, by decide⟩

/-- C5 (amended): whenever token verification fails the handler emits one
AUTH_FAILED frame whose code is always ERR_1002, with the failure message
from the auth service (the expired case differs only in that message,
which validateToken maps to the token-expired text), and then closes the
socket with close code 4001; registries and socket state are unchanged. -/
theorem claim5_amended_auth_failed (st : St) (sock : SocketState) (tok errMsg m : String)
    (netOut : Option (Option String)) (authResult : Except String AuthenticatedUser)
    (h : authResult = Except.error errMsg)
    (hm : strContains m "expired" = true) :
    handleAuth st sock true (some tok) authResult netOut =
      (st, sock,
        [Action.send sock.socketId ⟨WsEvents.AUTH_FAILED,
           OutData.err ErrorCodes.AUTH_TOKEN_INVALID errMsg⟩,
         Action.closeSock sock.socketId 4001 "Authentication failed"]) ∧
    validateWsToken (Except.error m) = Except.error ErrorMessages.authTokenExpired := by
  subst h
  constructor
  · rfl
  · simp [validateWsToken, validateToken, hm]

/-- C5 witness: the amended theorem at a concrete invalid-token failure and
the concrete expired-token message. -/
theorem claim5_amended_auth_failed_witness :
    handleAuth ⟨⟨[], []⟩, [], [], []⟩ ⟨"sock_w5", false, false, none, true, 0, none, none⟩
        true (some "tok") (Except.error "invalid signature") none =
      (⟨⟨[], []⟩, [], [], []⟩, ⟨"sock_w5", false, false, none, true, 0, none, none⟩,
        [Action.send (SocketState.socketId ⟨"sock_w5", false, false, none, true, 0, none, none⟩)
           ⟨WsEvents.AUTH_FAILED,
             OutData.err ErrorCodes.AUTH_TOKEN_INVALID "invalid signature"⟩,
         Action.closeSock (SocketState.socketId ⟨"sock_w5", false, false, none, true, 0, none, none⟩)
           4001 "Authentication failed"]) ∧
    validateWsToken (Except.error "jwt expired") =
      Except.error ErrorMessages.authTokenExpired :=
  claim5_amended_auth_failed ⟨⟨[], []⟩, [], [], []⟩
    ⟨"sock_w5", false, false, none, true, 0, none, none⟩ "tok" "invalid signature"
    "jwt expired" none (Except.error "invalid signature") rfl (by decide)

-- ═══════════════════════════════════════════════════════════════════════
-- C6: connection-request TTL
-- ═══════════════════════════════════════════════════════════════════════

/-- C6: a request lookup returns an entry exactly when it is present and at
most 30 seconds old; a lookup that hits an entry older than 30 seconds
returns nothing and evicts the entry; consequently a CONNECTION_RESPONSE
naming an expired request produces exactly one ERR_6001 error frame to the
responder — no frame to the original requester — and the expired entry is
evicted. -/
theorem claim6_request_ttl
    (st st2 : St) (rid rid2 sidUuid : String) (now now2 : Nat)
    (r r2 : ConnectionRequest) (sock : SocketState) (u : AuthenticatedUser) (acc : Bool)
    (hreg : sock.isRegistered = true) (huser : sock.user = some u)
    (hrid : rid.isEmpty = false)
    (hlook : mapLookup st.connectionRequests rid = some r)
    (hexp : now - r.createdAt > REQUEST_EXPIRY_MS) :
    ((getConnectionRequest st2 rid2 now2).1 = some r2 ↔
      (mapLookup st2.connectionRequests rid2 = some r2 ∧
        now2 - r2.createdAt ≤ REQUEST_EXPIRY_MS)) ∧
    (getConnectionRequest st rid now).1 = none ∧
    mapLookup (getConnectionRequest st rid now).2.connectionRequests rid = none ∧
    handleConnectionResponse st sock true (some rid) (some acc) sidUuid now =
      ({ st with connectionRequests := mapDelete st.connectionRequests rid },
        [Action.send sock.socketId ⟨WsEvents.ERROR,
          OutData.err ErrorCodes.CONNECTION_REQUEST_NOT_FOUND
            "Request not found or expired"⟩]) := by
  have hget : getConnectionRequest st rid now =
      (none, { st with connectionRequests := mapDelete st.connectionRequests rid }) := by
    simp [getConnectionRequest, hlook, hexp]
  refine ⟨?_, ?_, ?_, ?_⟩
  · unfold getConnectionRequest
    cases hl : mapLookup st2.connectionRequests rid2 with
    | none => simp [hl]
    | some req =>
      by_cases hage : now2 - req.createdAt > REQUEST_EXPIRY_MS
      · simp only [hl, if_pos hage]
        constructor
        · intro hc
          exact absurd hc (by simp)
        · rintro ⟨h1, h2⟩
          rw [Option.some.injEq] at h1
          subst h1
          omega
      · simp only [hl, if_neg hage]
        constructor
        · intro hc
          rw [Option.some.injEq] at hc
          subst hc
          exact ⟨rfl, by omega⟩
        · rintro ⟨h1, _⟩
          exact h1
  · rw [hget]
  · rw [hget]
    exact mapLookup_delete_self st.connectionRequests rid
  · simp [handleConnectionResponse, hreg, huser, hrid, hget, emitErrorIf, emitIf]

/-- C6 witness: a concrete registry holding one request created at 100 ms,
looked up and answered at 40000 ms (age over the 30 s TTL). -/
theorem claim6_request_ttl_witness :
    ((getConnectionRequest
        ⟨⟨[], []⟩, [], [("req_100_aa", ⟨"req_100_aa", "alice", "bob", 100⟩)],
          [("sock_b6", ⟨true⟩)]⟩ "req_100_aa" 90).1 =
          some ⟨"req_100_aa", "alice", "bob", 100⟩ ↔
      (mapLookup (St.connectionRequests
          ⟨⟨[], []⟩, [], [("req_100_aa", ⟨"req_100_aa", "alice", "bob", 100⟩)],
            [("sock_b6", ⟨true⟩)]⟩) "req_100_aa" =
          some ⟨"req_100_aa", "alice", "bob", 100⟩ ∧
        90 - 100 ≤ REQUEST_EXPIRY_MS)) ∧
    (getConnectionRequest
        ⟨⟨[], []⟩, [], [("req_100_aa", ⟨"req_100_aa", "alice", "bob", 100⟩)],
          [("sock_b6", ⟨true⟩)]⟩ "req_100_aa" 40000).1 = none ∧
    mapLookup (St.connectionRequests (getConnectionRequest
        ⟨⟨[], []⟩, [], [("req_100_aa", ⟨"req_100_aa", "alice", "bob", 100⟩)],
          [("sock_b6", ⟨true⟩)]⟩ "req_100_aa" 40000).2) "req_100_aa" = none ∧
    handleConnectionResponse
        ⟨⟨[], []⟩, [], [("req_100_aa", ⟨"req_100_aa", "alice", "bob", 100⟩)],
          [("sock_b6", ⟨true⟩)]⟩
        ⟨"sock_b6", true, true, some ⟨"bob", "b@x", "Bob", [], none⟩, true, 0,
          some "net1", none⟩ true (some "req_100_aa") (some true) "uuid-w6" 40000 =
      ({ (⟨⟨[], []⟩, [], [("req_100_aa", ⟨"req_100_aa", "alice", "bob", 100⟩)],
            [("sock_b6", ⟨true⟩)]⟩ : St) with
          connectionRequests := mapDelete
            [("req_100_aa", ⟨"req_100_aa", "alice", "bob", 100⟩)] "req_100_aa" },
        [Action.send "sock_b6" ⟨WsEvents.ERROR,
          OutData.err ErrorCodes.CONNECTION_REQUEST_NOT_FOUND
            "Request not found or expired"⟩]) :=
  claim6_request_ttl
    ⟨⟨[], []⟩, [], [("req_100_aa", ⟨"req_100_aa", "alice", "bob", 100⟩)],
      [("sock_b6", ⟨true⟩)]⟩
    ⟨⟨[], []⟩, [], [("req_100_aa", ⟨"req_100_aa", "alice", "bob", 100⟩)],
      [("sock_b6", ⟨true⟩)]⟩
    "req_100_aa" "req_100_aa" "uuid-w6" 40000 90
    ⟨"req_100_aa", "alice", "bob", 100⟩ ⟨"req_100_aa", "alice", "bob", 100⟩
    ⟨"sock_b6", true, true, some ⟨"bob", "b@x", "Bob", [], none⟩, true, 0,
      some "net1", none⟩
    ⟨"bob", "b@x", "Bob", [], none⟩ true rfl rfl (by decide) (by decide) (by decide)

-- ═══════════════════════════════════════════════════════════════════════
-- C10: missing-field validation
-- ═══════════════════════════════════════════════════════════════════════

/-- C10: with a registered sender, a CONNECTION_REQUEST without targetId,
a CONNECTION_RESPONSE without requestId or without accepted, and a
SEND_MESSAGE without sessionId each produce exactly one ERR_9003 error
frame to the sender, close nothing, and leave every registry unchanged. -/
theorem claim10_validation_failures (st : St) (sock : SocketState)
    (now : Nat) (suffix sidUuid rid : String) (acc : Bool)
    (content msgType corrId : Option String)
    (hreg : sock.isRegistered = true) (huser : ∃ u, sock.user = some u) :
    handleConnectionRequest st sock true none now suffix =
      (st, [Action.send sock.socketId ⟨WsEvents.ERROR,
        OutData.err ErrorCodes.VALIDATION_FAILED "targetId is required"⟩]) ∧
    handleConnectionResponse st sock true none (some acc) sidUuid now =
      (st, [Action.send sock.socketId ⟨WsEvents.ERROR,
        OutData.err ErrorCodes.VALIDATION_FAILED "requestId and accepted required"⟩]) ∧
    handleConnectionResponse st sock true (some rid) none sidUuid now =
      (st, [Action.send sock.socketId ⟨WsEvents.ERROR,
        OutData.err ErrorCodes.VALIDATION_FAILED "requestId and accepted required"⟩]) ∧
    handleSendMessage st sock true none content msgType corrId now =
      (st, [Action.send sock.socketId ⟨WsEvents.ERROR,
        OutData.err ErrorCodes.VALIDATION_FAILED "sessionId is required"⟩]) := by
  obtain ⟨u, hu⟩ := huser
  refine ⟨?_, ?_, ?_, ?_⟩
  · simp [handleConnectionRequest, hreg, hu, emitErrorIf, emitIf]
  · simp [handleConnectionResponse, hreg, hu, emitErrorIf, emitIf]
  · simp [handleConnectionResponse, hreg, hu, emitErrorIf, emitIf]
  · simp [handleSendMessage, hreg, hu, emitErrorIf, emitIf]

/-- C10 witness: concrete registered connection and empty registries. -/
theorem claim10_validation_failures_witness :
    handleConnectionRequest ⟨⟨[], []⟩, [], [], []⟩
        ⟨"sock_w10", true, true, some ⟨"u10", "u@x", "U", [], none⟩, true, 0, none, none⟩
        true none 1000 "suf" =
      (⟨⟨[], []⟩, [], [], []⟩, [Action.send "sock_w10" ⟨WsEvents.ERROR,
        OutData.err ErrorCodes.VALIDATION_FAILED "targetId is required"⟩]) ∧
    handleConnectionResponse ⟨⟨[], []⟩, [], [], []⟩
        ⟨"sock_w10", true, true, some ⟨"u10", "u@x", "U", [], none⟩, true, 0, none, none⟩
        true none (some false) "uuid-w10" 1000 =
      (⟨⟨[], []⟩, [], [], []⟩, [Action.send "sock_w10" ⟨WsEvents.ERROR,
        OutData.err ErrorCodes.VALIDATION_FAILED "requestId and accepted required"⟩]) ∧
    handleConnectionResponse ⟨⟨[], []⟩, [], [], []⟩
        ⟨"sock_w10", true, true, some ⟨"u10", "u@x", "U", [], none⟩, true, 0, none, none⟩
        true (some "req_1_x") none "uuid-w10" 1000 =
      (⟨⟨[], []⟩, [], [], []⟩, [Action.send "sock_w10" ⟨WsEvents.ERROR,
        OutData.err ErrorCodes.VALIDATION_FAILED "requestId and accepted required"⟩]) ∧
    handleSendMessage ⟨⟨[], []⟩, [], [], []⟩
        ⟨"sock_w10", true, true, some ⟨"u10", "u@x", "U", [], none⟩, true, 0, none, none⟩
        true none (some "hi") none none 1000 =
      (⟨⟨[], []⟩, [], [], []⟩, [Action.send "sock_w10" ⟨WsEvents.ERROR,
        OutData.err ErrorCodes.VALIDATION_FAILED "sessionId is required"⟩]) :=
  claim10_validation_failures ⟨⟨[], []⟩, [], [], []⟩
    ⟨"sock_w10", true, true, some ⟨"u10", "u@x", "U", [], none⟩, true, 0, none, none⟩
    1000 "suf" "uuid-w10" "req_1_x" false (some "hi") none none rfl ⟨_, rfl⟩

-- ═══════════════════════════════════════════════════════════════════════
-- C7: DISCOVER_PEERS
-- ═══════════════════════════════════════════════════════════════════════

theorem discover_list_eq (r : PeerRegistry) (selfId n : String) :
    ((getOnlinePeersInNetwork r n).filter (fun p => !(p.userId == selfId))).map peerListEntryOf
      = discoverSpecEntries r selfId n := by
  unfold getOnlinePeersInNetwork getOnlinePeers discoverSpecEntries
  rw [List.filter_filter, List.filter_filter]
  congr 1
  apply List.filter_congr
  intro p _
  cases hp1 : p.status == PeerStatus.online <;>
    cases hp2 : p.networkId == some n <;>
      cases hp3 : p.userId == selfId <;> simp [hp1, hp2, hp3]

/-- C7: DISCOVER_PEERS from a registered connection emits exactly one
PEERS_LIST frame: with an empty peers array when the caller's network id
is null, and otherwise holding exactly the online peers whose network id
equals the caller's, excluding the caller, each entry carrying profile,
status and a connection mode defaulting to REMOTE. -/
theorem claim7_discover_peers (st : St) (sock1 sock2 : SocketState)
    (u1 u2 : AuthenticatedUser) (n : String)
    (hreg1 : sock1.isRegistered = true) (huser1 : sock1.user = some u1)
    (hnet1 : sock1.networkId = none)
    (hreg2 : sock2.isRegistered = true) (huser2 : sock2.user = some u2)
    (hnet2 : sock2.networkId = some n) :
    handleDiscoverPeers st sock1 true =
      (st, [Action.send sock1.socketId ⟨WsEvents.PEERS_LIST, OutData.peersList []⟩]) ∧
    handleDiscoverPeers st sock2 true =
      (st, [Action.send sock2.socketId ⟨WsEvents.PEERS_LIST,
        OutData.peersList (discoverSpecEntries st.peers u2.userId n)⟩]) := by
  constructor
  · simp [handleDiscoverPeers, hreg1, huser1, hnet1, emitIf]
  · simp [handleDiscoverPeers, hreg2, huser2, hnet2, emitIf, discover_list_eq]

/-- C7 witness: a concrete registry with an online same-network peer, an
online other-network peer, an offline same-network peer and the caller
themselves; the caller with a network sees exactly the one matching peer,
the caller without a network sees none. -/
theorem claim7_discover_peers_witness :
    handleDiscoverPeers
        ⟨⟨[("carol", ⟨"carol", "sock_c", "Carol", IdeType.vscode, PeerRole.guest,
              PeerStatus.online, [], 0, 0, none, some "netX"⟩),
           ("dave", ⟨"dave", "sock_d", "Dave", IdeType.vim, PeerRole.guest,
              PeerStatus.online, [], 0, 0, none, some "netY"⟩),
           ("erin", ⟨"erin", "sock_e", "Erin", IdeType.other, PeerRole.guest,
              PeerStatus.offline, [], 0, 0, none, some "netX"⟩),
           ("self7", ⟨"self7", "sock_s7", "Self", IdeType.other, PeerRole.guest,
              PeerStatus.online, [], 0, 0, none, some "netX"⟩)], []⟩, [], [], []⟩
        ⟨"sock_n7", true, true, some ⟨"nonet7", "n@x", "N", [], none⟩, true, 0, none, none⟩
        true =
      (⟨⟨[("carol", ⟨"carol", "sock_c", "Carol", IdeType.vscode, PeerRole.guest,
              PeerStatus.online, [], 0, 0, none, some "netX"⟩),
           ("dave", ⟨"dave", "sock_d", "Dave", IdeType.vim, PeerRole.guest,
              PeerStatus.online, [], 0, 0, none, some "netY"⟩),
           ("erin", ⟨"erin", "sock_e", "Erin", IdeType.other, PeerRole.guest,
              PeerStatus.offline, [], 0, 0, none, some "netX"⟩),
           ("self7", ⟨"self7", "sock_s7", "Self", IdeType.other, PeerRole.guest,
              PeerStatus.online, [], 0, 0, none, some "netX"⟩)], []⟩, [], [], []⟩,
        [Action.send "sock_n7" ⟨WsEvents.PEERS_LIST, OutData.peersList []⟩]) ∧
    handleDiscoverPeers
        ⟨⟨[("carol", ⟨"carol", "sock_c", "Carol", IdeType.vscode, PeerRole.guest,
              PeerStatus.online, [], 0, 0, none, some "netX"⟩),
           ("dave", ⟨"dave", "sock_d", "Dave", IdeType.vim, PeerRole.guest,
              PeerStatus.online, [], 0, 0, none, some "netY"⟩),
           ("erin", ⟨"erin", "sock_e", "Erin", IdeType.other, PeerRole.guest,
              PeerStatus.offline, [], 0, 0, none, some "netX"⟩),
           ("self7", ⟨"self7", "sock_s7", "Self", IdeType.other, PeerRole.guest,
              PeerStatus.online, [], 0, 0, none, some "netX"⟩)], []⟩, [], [], []⟩
        ⟨"sock_s7", true, true, some ⟨"self7", "s@x", "Self", [], none⟩, true, 0,
          some "netX", none⟩ true =
      (⟨⟨[("carol", ⟨"carol", "sock_c", "Carol", IdeType.vscode, PeerRole.guest,
              PeerStatus.online, [], 0, 0, none, some "netX"⟩),
           ("dave", ⟨"dave", "sock_d", "Dave", IdeType.vim, PeerRole.guest,
              PeerStatus.online, [], 0, 0, none, some "netY"⟩),
           ("erin", ⟨"erin", "sock_e", "Erin", IdeType.other, PeerRole.guest,
              PeerStatus.offline, [], 0, 0, none, some "netX"⟩),
           ("self7", ⟨"self7", "sock_s7", "Self", IdeType.other, PeerRole.guest,
              PeerStatus.online, [], 0, 0, none, some "netX"⟩)], []⟩, [], [], []⟩,
        [Action.send "sock_s7" ⟨WsEvents.PEERS_LIST,
          OutData.peersList (discoverSpecEntries
            ⟨[("carol", ⟨"carol", "sock_c", "Carol", IdeType.vscode, PeerRole.guest,
                PeerStatus.online, [], 0, 0, none, some "netX"⟩),
              ("dave", ⟨"dave", "sock_d", "Dave", IdeType.vim, PeerRole.guest,
                PeerStatus.online, [], 0, 0, none, some "netY"⟩),
              ("erin", ⟨"erin", "sock_e", "Erin", IdeType.other, PeerRole.guest,
                PeerStatus.offline, [], 0, 0, none, some "netX"⟩),
              ("self7", ⟨"self7", "sock_s7", "Self", IdeType.other, PeerRole.guest,
                PeerStatus.online, [], 0, 0, none, some "netX"⟩)], []⟩ "self7" "netX")⟩]) :=
  claim7_discover_peers
    ⟨⟨[("carol", ⟨"carol", "sock_c", "Carol", IdeType.vscode, PeerRole.guest,
          PeerStatus.online, [], 0, 0, none, some "netX"⟩),
       ("dave", ⟨"dave", "sock_d", "Dave", IdeType.vim, PeerRole.guest,
          PeerStatus.online, [], 0, 0, none, some "netY"⟩),
       ("erin", ⟨"erin", "sock_e", "Erin", IdeType.other, PeerRole.guest,
          PeerStatus.offline, [], 0, 0, none, some "netX"⟩),
       ("self7", ⟨"self7", "sock_s7", "Self", IdeType.other, PeerRole.guest,
          PeerStatus.online, [], 0, 0, none, some "netX"⟩)], []⟩, [], [], []⟩
    ⟨"sock_n7", true, true, some ⟨"nonet7", "n@x", "N", [], none⟩, true, 0, none, none⟩
    ⟨"sock_s7", true, true, some ⟨"self7", "s@x", "Self", [], none⟩, true, 0,
      some "netX", none⟩
    ⟨"nonet7", "n@x", "N", [], none⟩ ⟨"self7", "s@x", "Self", [], none⟩ "netX"
    rfl rfl rfl rfl rfl rfl

-- ═══════════════════════════════════════════════════════════════════════
-- C2: session destruction on departure
-- ═══════════════════════════════════════════════════════════════════════

/-- C2, counterexample: in a concrete two-participant session (host alice,
guest bob), the guest's departure is processed (removeParticipant returns
true) yet the session record still exists afterwards — the claim says the
session is destroyed when either participant departs. -/
theorem claim2_guest_departure_counterexample :
    (removeParticipant
        ⟨⟨[("alice", ⟨"alice", "sock_a2", "Alice", IdeType.other, PeerRole.host,
              PeerStatus.online, ["ses_s1"], 0, 0, none, some "netX"⟩),
           ("bob", ⟨"bob", "sock_b2", "Bob", IdeType.other, PeerRole.guest,
              PeerStatus.online, ["ses_s1"], 0, 0, none, some "netX"⟩)],
          [("sock_a2", "alice"), ("sock_b2", "bob")]⟩,
         [("ses_s1", ⟨"ses_s1", "alice",
            [("alice", ⟨"alice", "sock_a2", PeerRole.host, 0, 0⟩),
             ("bob", ⟨"bob", "sock_b2", PeerRole.guest, 0, 0⟩)],
            SessionStatus.active, 0, 0⟩)], [], []⟩
        "ses_s1" "bob" 500).2 = true ∧
    mapLookup (removeParticipant
        ⟨⟨[("alice", ⟨"alice", "sock_a2", "Alice", IdeType.other, PeerRole.host,
              PeerStatus.online, ["ses_s1"], 0, 0, none, some "netX"⟩),
           ("bob", ⟨"bob", "sock_b2", "Bob", IdeType.other, PeerRole.guest,
              PeerStatus.online, ["ses_s1"], 0, 0, none, some "netX"⟩)],
          [("sock_a2", "alice"), ("sock_b2", "bob")]⟩,
         [("ses_s1", ⟨"ses_s1", "alice",
            [("alice", ⟨"alice", "sock_a2", PeerRole.host, 0, 0⟩),
             ("bob", ⟨"bob", "sock_b2", PeerRole.guest, 0, 0⟩)],
            SessionStatus.active, 0, 0⟩)], [], []⟩
        "ses_s1" "bob" 500).1.sessions "ses_s1" ≠ none := by
  exact ⟨by decide, by decide⟩

/-- C2 (amended): for a two-participant session, the session is destroyed
when the HOST departs (or when it becomes empty); when the guest departs
the session record survives with the guest removed and the host as the
remaining participant. -/
theorem claim2_amended_session_departure (st : St) (sid h g : String)
    (ph pg : SessionParticipant) (sess : CollaborationSession) (now : Nat)
    (hlook : mapLookup st.sessions sid = some sess)
    (hparts : sess.participants = [(h, ph), (g, pg)])
    (hhost : sess.hostUserId = h) (hne : g ≠ h) :
    mapLookup (removeParticipant st sid h now).1.sessions sid = none ∧
    mapLookup (removeParticipant st sid g now).1.sessions sid =
      some { sess with participants := [(h, ph)], lastActivityAt := now } := by
  have hgh : (g == h) = false := by
    simp [hne]
  have hhg : (h == g) = false := by
    simp [Ne.symm hne]
  constructor
  · simp [removeParticipant, endSession, hlook, hparts, hhost, mapHas, mapDelete, hgh,
      mapLookup_set_self]
    exact mapLookup_delete_self _ _
  · simp [removeParticipant, hlook, hparts, hhost, mapHas, mapDelete, hgh, hhg,
      mapLookup_set_self]

/-- C2 witness: the amended theorem on the concrete alice/bob session. -/
theorem claim2_amended_session_departure_witness :
    mapLookup (removeParticipant
        ⟨⟨[("alice", ⟨"alice", "sock_a2", "Alice", IdeType.other, PeerRole.host,
              PeerStatus.online, ["ses_s1"], 0, 0, none, some "netX"⟩),
           ("bob", ⟨"bob", "sock_b2", "Bob", IdeType.other, PeerRole.guest,
              PeerStatus.online, ["ses_s1"], 0, 0, none, some "netX"⟩)],
          [("sock_a2", "alice"), ("sock_b2", "bob")]⟩,
         [("ses_s1", ⟨"ses_s1", "alice",
            [("alice", ⟨"alice", "sock_a2", PeerRole.host, 0, 0⟩),
             ("bob", ⟨"bob", "sock_b2", PeerRole.guest, 0, 0⟩)],
            SessionStatus.active, 0, 0⟩)], [], []⟩
        "ses_s1" "alice" 500).1.sessions "ses_s1" = none ∧
    mapLookup (removeParticipant
        ⟨⟨[("alice", ⟨"alice", "sock_a2", "Alice", IdeType.other, PeerRole.host,
              PeerStatus.online, ["ses_s1"], 0, 0, none, some "netX"⟩),
           ("bob", ⟨"bob", "sock_b2", "Bob", IdeType.other, PeerRole.guest,
              PeerStatus.online, ["ses_s1"], 0, 0, none, some "netX"⟩)],
          [("sock_a2", "alice"), ("sock_b2", "bob")]⟩,
         [("ses_s1", ⟨"ses_s1", "alice",
            [("alice", ⟨"alice", "sock_a2", PeerRole.host, 0, 0⟩),
             ("bob", ⟨"bob", "sock_b2", PeerRole.guest, 0, 0⟩)],
            SessionStatus.active, 0, 0⟩)], [], []⟩
        "ses_s1" "bob" 500).1.sessions "ses_s1" =
      some { (⟨"ses_s1", "alice",
            [("alice", ⟨"alice", "sock_a2", PeerRole.host, 0, 0⟩),
             ("bob", ⟨"bob", "sock_b2", PeerRole.guest, 0, 0⟩)],
            SessionStatus.active, 0, 0⟩ : CollaborationSession) with
          participants := [("alice", ⟨"alice", "sock_a2", PeerRole.host, 0, 0⟩)],
          lastActivityAt := 500 } :=
  claim2_amended_session_departure
    ⟨⟨[("alice", ⟨"alice", "sock_a2", "Alice", IdeType.other, PeerRole.host,
          PeerStatus.online, ["ses_s1"], 0, 0, none, some "netX"⟩),
       ("bob", ⟨"bob", "sock_b2", "Bob", IdeType.other, PeerRole.guest,
          PeerStatus.online, ["ses_s1"], 0, 0, none, some "netX"⟩)],
      [("sock_a2", "alice"), ("sock_b2", "bob")]⟩,
     [("ses_s1", ⟨"ses_s1", "alice",
        [("alice", ⟨"alice", "sock_a2", PeerRole.host, 0, 0⟩),
         ("bob", ⟨"bob", "sock_b2", PeerRole.guest, 0, 0⟩)],
        SessionStatus.active, 0, 0⟩)], [], []⟩
    "ses_s1" "alice" "bob"
    ⟨"alice", "sock_a2", PeerRole.host, 0, 0⟩ ⟨"bob", "sock_b2", PeerRole.guest, 0, 0⟩
    ⟨"ses_s1", "alice",
      [("alice", ⟨"alice", "sock_a2", PeerRole.host, 0, 0⟩),
       ("bob", ⟨"bob", "sock_b2", PeerRole.guest, 0, 0⟩)],
      SessionStatus.active, 0, 0⟩ 500
    rfl rfl rfl (by decide)

-- ═══════════════════════════════════════════════════════════════════════
-- C4: supersession ordering in handleAuth
-- ═══════════════════════════════════════════════════════════════════════

/-- C4: when AUTH succeeds for a user who already has a live Peer (whose
socket is registered and open), the handler's side effects, in program
order, are: ERR_2005 to the prior socket, close(4002) of the prior socket,
removal of the prior Peer record, removal of the prior socket
registration, registration of the new socket, and only then AUTH_SUCCESS
to the new connection; afterwards no Peer exists for the user (so at most
one), the prior socket is gone from the socket registry, and the new one
is registered. -/
theorem claim4_supersession_order (st : St) (sock : SocketState) (tok : String)
    (user : AuthenticatedUser) (oldPeer : RegisteredPeer) (netOut : Option (Option String))
    (hold : mapLookup st.peers.peersByUserId user.userId = some oldPeer)
    (holdsock : mapLookup st.sockets oldPeer.socketId = some ⟨true⟩)
    (hne : (sock.socketId == oldPeer.socketId) = false) :
    (handleAuth st sock true (some tok) (Except.ok user) netOut).2.2 =
      [Action.send oldPeer.socketId ⟨WsEvents.ERROR,
         OutData.err ErrorCodes.PEER_ALREADY_CONNECTED
           "New connection established from another client"⟩,
       Action.closeSock oldPeer.socketId 4002 "Superseded by new connection",
       Action.removePeerRecord user.userId,
       Action.removeSocketRegistration oldPeer.socketId,
       Action.addSocketRegistration sock.socketId,
       Action.send sock.socketId ⟨WsEvents.AUTH_SUCCESS,
         OutData.authSuccess user.userId user.displayName user.email⟩] ∧
    mapLookup
      (handleAuth st sock true (some tok) (Except.ok user) netOut).1.peers.peersByUserId
      user.userId = none ∧
    mapLookup (handleAuth st sock true (some tok) (Except.ok user) netOut).1.sockets
      oldPeer.socketId = none ∧
    mapLookup (handleAuth st sock true (some tok) (Except.ok user) netOut).1.sockets
      sock.socketId = some ⟨true⟩ := by
  have hregd : isPeerRegistered st.peers user.userId = true := by
    simp [isPeerRegistered, mapHas, hold]
  refine ⟨?_, ?_, ?_, ?_⟩
  · simp [handleAuth, hregd, getPeerByUserId, hold, getSocket, holdsock, emitErrorIf, emitIf]
  · simp [handleAuth, hregd, getPeerByUserId, hold, getSocket, holdsock,
      unregisterPeerByUserId, unregisterSocket, registerSocket, mapLookup_delete_self]
  · simp [handleAuth, hregd, getPeerByUserId, hold, getSocket, holdsock,
      unregisterPeerByUserId, unregisterSocket, registerSocket,
      mapLookup_set_ne _ _ _ _ hne, mapLookup_delete_self]
  · simp [handleAuth, hregd, getPeerByUserId, hold, getSocket, holdsock,
      unregisterPeerByUserId, unregisterSocket, registerSocket, mapLookup_set_self]

/-- C4 witness: concrete supersession of user u1's old socket by a new
connection. -/
theorem claim4_supersession_order_witness :
    (handleAuth
        ⟨⟨[("u1", ⟨"u1", "sock_old", "U One", IdeType.other, PeerRole.guest,
              PeerStatus.online, [], 0, 0, none, some "netZ"⟩)],
          [("sock_old", "u1")]⟩, [], [], [("sock_old", ⟨true⟩)]⟩
        ⟨"sock_new", false, false, none, true, 0, none, none⟩ true (some "tok4")
        (Except.ok ⟨"u1", "u1@x", "U One", [], none⟩) (some (some "netZ"))).2.2 =
      [Action.send "sock_old" ⟨WsEvents.ERROR,
         OutData.err ErrorCodes.PEER_ALREADY_CONNECTED
           "New connection established from another client"⟩,
       Action.closeSock "sock_old" 4002 "Superseded by new connection",
       Action.removePeerRecord "u1",
       Action.removeSocketRegistration "sock_old",
       Action.addSocketRegistration "sock_new",
       Action.send "sock_new" ⟨WsEvents.AUTH_SUCCESS,
         OutData.authSuccess "u1" "U One" "u1@x"⟩] ∧
    mapLookup
      (handleAuth
        ⟨⟨[("u1", ⟨"u1", "sock_old", "U One", IdeType.other, PeerRole.guest,
              PeerStatus.online, [], 0, 0, none, some "netZ"⟩)],
          [("sock_old", "u1")]⟩, [], [], [("sock_old", ⟨true⟩)]⟩
        ⟨"sock_new", false, false, none, true, 0, none, none⟩ true (some "tok4")
        (Except.ok ⟨"u1", "u1@x", "U One", [], none⟩)
        (some (some "netZ"))).1.peers.peersByUserId "u1" = none ∧
    mapLookup (handleAuth
        ⟨⟨[("u1", ⟨"u1", "sock_old", "U One", IdeType.other, PeerRole.guest,
              PeerStatus.online, [], 0, 0, none, some "netZ"⟩)],
          [("sock_old", "u1")]⟩, [], [], [("sock_old", ⟨true⟩)]⟩
        ⟨"sock_new", false, false, none, true, 0, none, none⟩ true (some "tok4")
        (Except.ok ⟨"u1", "u1@x", "U One", [], none⟩)
        (some (some "netZ"))).1.sockets "sock_old" = none ∧
    mapLookup (handleAuth
        ⟨⟨[("u1", ⟨"u1", "sock_old", "U One", IdeType.other, PeerRole.guest,
              PeerStatus.online, [], 0, 0, none, some "netZ"⟩)],
          [("sock_old", "u1")]⟩, [], [], [("sock_old", ⟨true⟩)]⟩
        ⟨"sock_new", false, false, none, true, 0, none, none⟩ true (some "tok4")
        (Except.ok ⟨"u1", "u1@x", "U One", [], none⟩)
        (some (some "netZ"))).1.sockets "sock_new" = some ⟨true⟩ :=
  claim4_supersession_order
    ⟨⟨[("u1", ⟨"u1", "sock_old", "U One", IdeType.other, PeerRole.guest,
          PeerStatus.online, [], 0, 0, none, some "netZ"⟩)],
      [("sock_old", "u1")]⟩, [], [], [("sock_old", ⟨true⟩)]⟩
    ⟨"sock_new", false, false, none, true, 0, none, none⟩ "tok4"
    ⟨"u1", "u1@x", "U One", [], none⟩
    ⟨"u1", "sock_old", "U One", IdeType.other, PeerRole.guest,
      PeerStatus.online, [], 0, 0, none, some "netZ"⟩
    (some (some "netZ")) rfl rfl (by decide)

-- ═══════════════════════════════════════════════════════════════════════
-- C1: same-network gate on CONNECTION_REQUEST
-- ═══════════════════════════════════════════════════════════════════════

/-- C1, counterexample: sender alice and target bob both carry a NULL
network id, yet the handler forwards CONNECTION_REQUEST_RECEIVED to bob —
the claim's "only when sender and target share the same non-null
network_id" is violated, because the code's equality test treats two null
network ids as matching. -/
theorem claim1_both_null_counterexample :
    (handleConnectionRequest
        ⟨⟨[("alice", ⟨"alice", "sock_a1", "Alice", IdeType.other, PeerRole.guest,
              PeerStatus.online, [], 0, 0, none, none⟩),
           ("bob", ⟨"bob", "sock_b1", "Bob", IdeType.other, PeerRole.guest,
              PeerStatus.online, [], 0, 0, none, none⟩)],
          [("sock_a1", "alice"), ("sock_b1", "bob")]⟩, [], [],
         [("sock_a1", ⟨true⟩), ("sock_b1", ⟨true⟩)]⟩
        ⟨"sock_a1", true, true, some ⟨"alice", "a@x", "Alice", [], none⟩, true, 0,
          none, none⟩ true (some "bob") 1000 "sfx").2 =
      [Action.send "sock_b1" ⟨WsEvents.CONNECTION_REQUEST_RECEIVED,
        OutData.reqReceived "req_1000_sfx" "alice"
          (some ⟨"Alice", PeerRole.guest, IdeType.other⟩)⟩] ∧
    SocketState.networkId
      ⟨"sock_a1", true, true, some ⟨"alice", "a@x", "Alice", [], none⟩, true, 0,
        none, none⟩ = none ∧
    (mapLookup
        (⟨⟨[("alice", ⟨"alice", "sock_a1", "Alice", IdeType.other, PeerRole.guest,
              PeerStatus.online, [], 0, 0, none, none⟩),
           ("bob", ⟨"bob", "sock_b1", "Bob", IdeType.other, PeerRole.guest,
              PeerStatus.online, [], 0, 0, none, none⟩)],
          [("sock_a1", "alice"), ("sock_b1", "bob")]⟩, [], [],
         [("sock_a1", ⟨true⟩), ("sock_b1", ⟨true⟩)]⟩ : St).peers.peersByUserId
        "bob").map RegisteredPeer.networkId = some none := by
  exact ⟨by decide, by decide, by decide⟩

/-- C1 (amended): for a registered sender and an existing target peer, the
handler compares the two network ids as plain values (two null ids are
identical): when they differ the sender gets exactly one ERR_2007 error
frame, no request is created and nothing reaches the target (the state is
returned unchanged); when they are identical and the target socket is
registered, a request is stored and CONNECTION_REQUEST_RECEIVED is
forwarded to the target socket alone. -/
theorem claim1_amended_network_gate (st : St) (sockM sockE : SocketState)
    (uM uE : AuthenticatedUser) (toUserId : String) (targetPeer : RegisteredPeer)
    (conn : WsConn) (now : Nat) (suffix : String)
    (hregM : sockM.isRegistered = true) (huserM : sockM.user = some uM)
    (hregE : sockE.isRegistered = true) (huserE : sockE.user = some uE)
    (htne : toUserId.isEmpty = false)
    (hlookT : mapLookup st.peers.peersByUserId toUserId = some targetPeer)
    (hmis : sockM.networkId ≠ targetPeer.networkId)
    (heq : sockE.networkId = targetPeer.networkId)
    (hconn : mapLookup st.sockets targetPeer.socketId = some conn) :
    handleConnectionRequest st sockM true (some toUserId) now suffix =
      (st, [Action.send sockM.socketId ⟨WsEvents.ERROR,
        OutData.err ErrorCodes.PEER_NOT_IN_SAME_NETWORK "Peer is not in your network"⟩]) ∧
    (handleConnectionRequest st sockE true (some toUserId) now suffix).1.connectionRequests =
      mapSet st.connectionRequests (generateRequestId now suffix)
        ⟨generateRequestId now suffix, uE.userId, toUserId, now⟩ ∧
    (handleConnectionRequest st sockE true (some toUserId) now suffix).2 =
      emitIf conn.isOpen targetPeer.socketId ⟨WsEvents.CONNECTION_REQUEST_RECEIVED,
        OutData.reqReceived (generateRequestId now suffix) uE.userId
          ((mapLookup st.peers.peersByUserId uE.userId).map profileOf)⟩ := by
  have hmisb : (sockM.networkId == targetPeer.networkId) = false := by
    simp [hmis]
  have heqb : (sockE.networkId == targetPeer.networkId) = true := by
    simp [heq]
  refine ⟨?_, ?_, ?_⟩
  · simp [handleConnectionRequest, hregM, huserM, htne, getPeerByUserId, hlookT, hmisb,
      emitErrorIf, emitIf]
  · simp [handleConnectionRequest, hregE, huserE, htne, getPeerByUserId, hlookT, heqb,
      getSocket, hconn, createConnectionRequest]
  · simp [handleConnectionRequest, hregE, huserE, htne, getPeerByUserId, hlookT, heqb,
      getSocket, hconn, createConnectionRequest]

/-- C1 witness: concrete registries where the mismatch sender is on netQ,
the matching sender and the target both carry a null network id, and the
target socket is open. -/
theorem claim1_amended_network_gate_witness :
    handleConnectionRequest
        ⟨⟨[("bob", ⟨"bob", "sock_b1", "Bob", IdeType.other, PeerRole.guest,
              PeerStatus.online, [], 0, 0, none, none⟩)],
          [("sock_b1", "bob")]⟩, [], [], [("sock_b1", ⟨true⟩)]⟩
        ⟨"sock_m1", true, true, some ⟨"mal", "m@x", "Mal", [], none⟩, true, 0,
          some "netQ", none⟩ true (some "bob") 1000 "sfx" =
      (⟨⟨[("bob", ⟨"bob", "sock_b1", "Bob", IdeType.other, PeerRole.guest,
              PeerStatus.online, [], 0, 0, none, none⟩)],
          [("sock_b1", "bob")]⟩, [], [], [("sock_b1", ⟨true⟩)]⟩,
        [Action.send "sock_m1" ⟨WsEvents.ERROR,
          OutData.err ErrorCodes.PEER_NOT_IN_SAME_NETWORK "Peer is not in your network"⟩]) ∧
    (handleConnectionRequest
        ⟨⟨[("bob", ⟨"bob", "sock_b1", "Bob", IdeType.other, PeerRole.guest,
              PeerStatus.online, [], 0, 0, none, none⟩)],
          [("sock_b1", "bob")]⟩, [], [], [("sock_b1", ⟨true⟩)]⟩
        ⟨"sock_e1", true, true, some ⟨"eve", "e@x", "Eve", [], none⟩, true, 0,
          none, none⟩ true (some "bob") 1000 "sfx").1.connectionRequests =
      mapSet [] (generateRequestId 1000 "sfx")
        ⟨generateRequestId 1000 "sfx", "eve", "bob", 1000⟩ ∧
    (handleConnectionRequest
        ⟨⟨[("bob", ⟨"bob", "sock_b1", "Bob", IdeType.other, PeerRole.guest,
              PeerStatus.online, [], 0, 0, none, none⟩)],
          [("sock_b1", "bob")]⟩, [], [], [("sock_b1", ⟨true⟩)]⟩
        ⟨"sock_e1", true, true, some ⟨"eve", "e@x", "Eve", [], none⟩, true, 0,
          none, none⟩ true (some "bob") 1000 "sfx").2 =
      emitIf true "sock_b1" ⟨WsEvents.CONNECTION_REQUEST_RECEIVED,
        OutData.reqReceived (generateRequestId 1000 "sfx") "eve"
          ((mapLookup [("bob", ⟨"bob", "sock_b1", "Bob", IdeType.other, PeerRole.guest,
              PeerStatus.online, [], 0, 0, none, none⟩)] "eve").map profileOf)⟩ :=
  claim1_amended_network_gate
    ⟨⟨[("bob", ⟨"bob", "sock_b1", "Bob", IdeType.other, PeerRole.guest,
          PeerStatus.online, [], 0, 0, none, none⟩)],
      [("sock_b1", "bob")]⟩, [], [], [("sock_b1", ⟨true⟩)]⟩
    ⟨"sock_m1", true, true, some ⟨"mal", "m@x", "Mal", [], none⟩, true, 0,
      some "netQ", none⟩
    ⟨"sock_e1", true, true, some ⟨"eve", "e@x", "Eve", [], none⟩, true, 0, none, none⟩
    ⟨"mal", "m@x", "Mal", [], none⟩ ⟨"eve", "e@x", "Eve", [], none⟩ "bob"
    ⟨"bob", "sock_b1", "Bob", IdeType.other, PeerRole.guest,
      PeerStatus.online, [], 0, 0, none, none⟩
    ⟨true⟩ 1000 "sfx" rfl rfl rfl rfl (by decide) (by decide) (by decide) rfl (by decide)

-- ═══════════════════════════════════════════════════════════════════════
-- C8: supporting lemmas about live map entries and peer session lists
-- ═══════════════════════════════════════════════════════════════════════

theorem mapLookup_mem (m : List (String × α)) (k : String) (v : α)
    (h : mapLookup m k = some v) : (k, v) ∈ m := by
  induction m with
  | nil => simp at h
  | cons e t ih =>
    obtain ⟨a, b⟩ := e
    cases he : a == k
    · simp only [mapLookup_cons, he, Bool.false_eq_true, if_false] at h
      exact List.mem_cons_of_mem _ (ih h)
    · have ha : a = k := eq_of_beq he
      simp only [mapLookup_cons, he, if_true, Option.some.injEq] at h
      subst ha
      subst h
      exact List.mem_cons_self _ _

theorem entry_mapSet (m : List (String × α)) (k : String) (v : α) (e : String × α)
    (hmem : e ∈ mapSet m k v) (hl : mapLookup (mapSet m k v) e.1 = some e.2) :
    (e.1 = k ∧ e.2 = v) ∨ (e.1 ≠ k ∧ e ∈ m ∧ mapLookup m e.1 = some e.2) := by
  by_cases hk : e.1 = k
  · left
    refine ⟨hk, ?_⟩
    rw [hk, mapLookup_set_self] at hl
    exact (Option.some.inj hl).symm
  · right
    have hbeq : (k == e.1) = false := by
      simp
      exact fun hc => hk hc.symm
    rw [mapLookup_set_ne m k e.1 v hbeq] at hl
    refine ⟨hk, ?_, hl⟩
    rcases mem_mapSet m k v e hmem with h1 | h1
    · exact h1
    · exact absurd (by rw [h1]) hk

theorem entry_mapDelete (m : List (String × α)) (k : String) (e : String × α)
    (hmem : e ∈ mapDelete m k) (hl : mapLookup (mapDelete m k) e.1 = some e.2) :
    e.1 ≠ k ∧ e ∈ m ∧ mapLookup m e.1 = some e.2 := by
  obtain ⟨hm, hne⟩ := mem_mapDelete m k e hmem
  have hne2 : e.1 ≠ k := by simpa using hne
  have hkne : (k == e.1) = false := by
    simp
    exact fun hc => hne2 hc.symm
  rw [mapLookup_delete_ne m k e.1 hkne] at hl
  exact ⟨hne2, hm, hl⟩

theorem peerHasSession_mono_addSession (r : PeerRegistry) (u s : String) (now : Nat)
    (uid sid : String) (h : peerHasSession r.peersByUserId uid sid = true) :
    peerHasSession (addSessionToPeer r u s now).1.peersByUserId uid sid = true := by
  unfold addSessionToPeer
  cases hu : mapLookup r.peersByUserId u with
  | none => exact h
  | some p =>
    try dsimp only
    by_cases hc : p.sessionIds.contains s = true
    · rw [if_pos hc]
      exact h
    · rw [if_neg hc]
      try dsimp only
      by_cases huid : uid = u
      · subst huid
        unfold peerHasSession at h ⊢
        rw [hu] at h
        try dsimp only
        rw [mapLookup_set_self]
        have hmem : sid ∈ p.sessionIds := by simpa using h
        simp [hmem]
      · have hbeq : (u == uid) = false := by
          simp
          exact fun hc2 => huid hc2.symm
        unfold peerHasSession at h ⊢
        try dsimp only
        rw [mapLookup_set_ne _ _ _ _ hbeq]
        exact h

theorem peerHasSession_addSession_self (r : PeerRegistry) (u s : String) (now : Nat)
    (h : (mapLookup r.peersByUserId u).isSome = true) :
    peerHasSession (addSessionToPeer r u s now).1.peersByUserId u s = true := by
  unfold addSessionToPeer
  cases hu : mapLookup r.peersByUserId u with
  | none => rw [hu] at h; simp at h
  | some p =>
    try dsimp only
    by_cases hc : p.sessionIds.contains s = true
    · rw [if_pos hc]
      unfold peerHasSession
      rw [hu]
      exact hc
    · rw [if_neg hc]
      unfold peerHasSession
      try dsimp only
      rw [mapLookup_set_self]
      simp

theorem addSession_lookup_isSome (r : PeerRegistry) (u s : String) (now : Nat)
    (u' : String) :
    (mapLookup (addSessionToPeer r u s now).1.peersByUserId u').isSome =
      (mapLookup r.peersByUserId u').isSome := by
  unfold addSessionToPeer
  cases hu : mapLookup r.peersByUserId u with
  | none => rfl
  | some p =>
    try dsimp only
    by_cases hc : p.sessionIds.contains s = true
    · rw [if_pos hc]
    · rw [if_neg hc]
      try dsimp only
      by_cases h' : u' = u
      · subst h'
        rw [mapLookup_set_self, hu]
        rfl
      · have hbeq : (u == u') = false := by
          simp
          exact fun hc2 => h' hc2.symm
        rw [mapLookup_set_ne _ _ _ _ hbeq]

theorem peerHasSession_removeSession_preserve (r : PeerRegistry) (u s : String) (now : Nat)
    (uid sid : String) (hd : uid ≠ u ∨ sid ≠ s)
    (h : peerHasSession r.peersByUserId uid sid = true) :
    peerHasSession (removeSessionFromPeer r u s now).1.peersByUserId uid sid = true := by
  unfold removeSessionFromPeer
  cases hu : mapLookup r.peersByUserId u with
  | none => exact h
  | some p =>
    try dsimp only
    by_cases hc : p.sessionIds.contains s = true
    · rw [if_pos hc]
      try dsimp only
      by_cases huid : uid = u
      · subst huid
        have hsid : sid ≠ s := by
          rcases hd with h1 | h1
          · exact absurd rfl h1
          · exact h1
        unfold peerHasSession at h ⊢
        rw [hu] at h
        try dsimp only
        rw [mapLookup_set_self]
        have hmem : sid ∈ p.sessionIds := by simpa using h
        have hmem2 : sid ∈ p.sessionIds.erase s := (List.mem_erase_of_ne hsid).2 hmem
        simpa using hmem2
      · have hbeq : (u == uid) = false := by
          simp
          exact fun hc2 => huid hc2.symm
        unfold peerHasSession at h ⊢
        try dsimp only
        rw [mapLookup_set_ne _ _ _ _ hbeq]
        exact h
    · rw [if_neg hc]
      exact h

theorem peerHasSession_removeFold_preserve (l : List (String × SessionParticipant))
    (s : String) (now : Nat) (r : PeerRegistry) (uid sid : String) (hs : sid ≠ s)
    (h : peerHasSession r.peersByUserId uid sid = true) :
    peerHasSession
      (l.foldl (fun ps e => (removeSessionFromPeer ps e.1 s now).1) r).peersByUserId
      uid sid = true := by
  induction l generalizing r with
  | nil => exact h
  | cons e t ih =>
    simp only [List.foldl_cons]
    exact ih _ (peerHasSession_removeSession_preserve _ _ _ _ _ _ (Or.inr hs) h)

theorem I3_endSession (st : St) (sid : String) (now : Nat) (hinv : InvariantI3 st) :
    InvariantI3 (endSession st sid now).1 := by
  unfold endSession
  cases hl : mapLookup st.sessions sid with
  | none => exact hinv
  | some sess =>
    try dsimp only
    intro e he hle q hq hlq
    obtain ⟨hne, hmem, hlook⟩ := entry_mapDelete st.sessions sid e he hle
    have hps := hinv e hmem hlook q hq hlq
    exact peerHasSession_removeFold_preserve sess.participants sid now st.peers q.1 e.1 hne hps

theorem I3_removeStep (st : St) (sid uid : String) (now : Nat) (sess : CollaborationSession)
    (hl : mapLookup st.sessions sid = some sess) (hinv : InvariantI3 st) :
    InvariantI3 { st with
      sessions := mapSet st.sessions sid
        { sess with participants := mapDelete sess.participants uid, lastActivityAt := now },
      peers := (removeSessionFromPeer st.peers uid sid now).1 } := by
  intro e he hle q hq hlq
  rcases entry_mapSet st.sessions sid _ e he hle with ⟨h1, h2⟩ | ⟨h1, h2, h3⟩
  · have hq2 : q ∈ mapDelete sess.participants uid := by
      rw [h2] at hq
      exact hq
    have hlq2 : mapLookup (mapDelete sess.participants uid) q.1 = some q.2 := by
      rw [h2] at hlq
      exact hlq
    obtain ⟨hqne, hqmem, hqlook⟩ := entry_mapDelete sess.participants uid q hq2 hlq2
    have hsrc := hinv (sid, sess) (mapLookup_mem _ _ _ hl) hl q hqmem hqlook
    rw [h1]
    exact peerHasSession_removeSession_preserve _ _ _ _ _ _ (Or.inl hqne) hsrc
  · have hsrc := hinv e h2 h3 q hq hlq
    exact peerHasSession_removeSession_preserve _ _ _ _ _ _ (Or.inr h1) hsrc

theorem I3_removeParticipant (st : St) (sid uid : String) (now : Nat)
    (hinv : InvariantI3 st) : InvariantI3 (removeParticipant st sid uid now).1 := by
  unfold removeParticipant
  cases hl : mapLookup st.sessions sid with
  | none => exact hinv
  | some sess =>
    try dsimp only
    by_cases hhas : mapHas sess.participants uid = true
    · rw [if_pos hhas]
      try dsimp only
      split
      · exact I3_endSession _ _ _ (I3_removeStep st sid uid now sess hl hinv)
      · exact I3_removeStep st sid uid now sess hl hinv
    · rw [if_neg hhas]
      exact hinv

theorem I3_foldRemoveParticipant (l : List String) (uid : String) (now : Nat) (st : St)
    (hinv : InvariantI3 st) :
    InvariantI3 (l.foldl (fun s sid => (removeParticipant s sid uid now).1) st) := by
  induction l generalizing st with
  | nil => exact hinv
  | cons a t ih =>
    simp only [List.foldl_cons]
    exact ih _ (I3_removeParticipant st a uid now hinv)

theorem I3_userDisconnect (st : St) (uid : String) (now : Nat) (hinv : InvariantI3 st) :
    InvariantI3 (handleUserDisconnect st uid now) := by
  unfold handleUserDisconnect
  try dsimp only
  intro e he hle q hq hlq
  exact I3_foldRemoveParticipant _ uid now st hinv e he hle q hq hlq

theorem I3_registerPeer (st : St) (uid : String) (payload : PeerRegistrationPayload)
    (sockId : String) (ipHash netId : Option String) (now : Nat) (hinv : InvariantI3 st) :
    InvariantI3
      { st with peers := (registerPeer st.peers uid payload sockId ipHash netId now).1 } := by
  intro e he hle q hq hlq
  have hsrc := hinv e he hle q hq hlq
  unfold registerPeer
  unfold peerHasSession at hsrc ⊢
  by_cases hq1 : q.1 = uid
  · rw [hq1] at hsrc ⊢
    cases hu : mapLookup st.peers.peersByUserId uid with
    | none =>
      rw [hu] at hsrc
      simp at hsrc
    | some p =>
      rw [hu] at hsrc
      try dsimp only
      rw [mapLookup_set_self]
      exact hsrc
  · have hbeq : (uid == q.1) = false := by
      simp
      exact fun hc2 => hq1 hc2.symm
    cases hu : mapLookup st.peers.peersByUserId uid with
    | none =>
      try dsimp only
      rw [mapLookup_set_ne _ _ _ _ hbeq]
      exact hsrc
    | some p =>
      try dsimp only
      rw [mapLookup_set_ne _ _ _ _ hbeq]
      exact hsrc

theorem I3_createSession (st : St) (u1 s1 u2 s2 uuid : String) (now : Nat)
    (h1 : (mapLookup st.peers.peersByUserId u1).isSome = true)
    (h2 : (mapLookup st.peers.peersByUserId u2).isSome = true)
    (hinv : InvariantI3 st) :
    InvariantI3 (createSessionForPeers st u1 s1 u2 s2 uuid now).1 := by
  unfold createSessionForPeers
  try dsimp only
  intro e he hle q hq hlq
  rcases entry_mapSet st.sessions (generateSessionId uuid) _ e he hle with ⟨ha, hb⟩ | ⟨ha, hb, hc⟩
  · have hq2 : q ∈ mapSet (mapSet [] u1 ⟨u1, s1, PeerRole.host, now, now⟩) u2
        ⟨u2, s2, PeerRole.guest, now, now⟩ := by
      rw [hb] at hq
      exact hq
    have hq1 : q.1 = u1 ∨ q.1 = u2 := by
      rcases mem_mapSet _ _ _ _ hq2 with hql | hqr
      · left
        have hq3 : q = (u1, (⟨u1, s1, PeerRole.host, now, now⟩ : SessionParticipant)) := by
          simpa [mapSet] using hql
        rw [hq3]
      · right
        rw [hqr]
    rw [ha]
    rcases hq1 with hq1 | hq1
    · rw [hq1]
      exact peerHasSession_mono_addSession _ _ _ _ _ _
        (peerHasSession_addSession_self _ _ _ _ h1)
    · rw [hq1]
      apply peerHasSession_addSession_self
      rw [addSession_lookup_isSome]
      exact h2
  · have hsrc := hinv e hb hc q hq hlq
    exact peerHasSession_mono_addSession _ _ _ _ _ _
      (peerHasSession_mono_addSession _ _ _ _ _ _ hsrc)

/-- C8: invariant I3 — every participant user of every session has a peer
record whose session list contains that session's id — is preserved by
every registry operation: session creation (given its precondition that
both users are registered peers, which the gateway checks), participant
removal, session end, user disconnect, and peer re-registration. -/
theorem claim8_invariant_preservation (st : St) (op : RegOp)
    (hpre : regOpPre st op) (hinv : InvariantI3 st) :
    InvariantI3 (applyRegOp st op) := by
  cases op with
  | createSession u1 s1 u2 s2 uuid now =>
    obtain ⟨h1, h2⟩ := hpre
    exact I3_createSession st u1 s1 u2 s2 uuid now h1 h2 hinv
  | removeParticipantOp sid uid now => exact I3_removeParticipant st sid uid now hinv
  | endSessionOp sid now => exact I3_endSession st sid now hinv
  | userDisconnect uid now => exact I3_userDisconnect st uid now hinv
  | registerPeerOp uid payload sockId ipHash netId now =>
    exact I3_registerPeer st uid payload sockId ipHash netId now hinv

/-- C8 witness: a concrete state with one session between hw8 (host) and
gw8 (guest), both peers listing the session; the invariant holds before
and is preserved across the guest's removal. -/
theorem claim8_invariant_preservation_witness :
    InvariantI3
      ⟨⟨[("hw8", ⟨"hw8", "sock_h8", "Host8", IdeType.other, PeerRole.host,
            PeerStatus.online, ["ses_w8"], 0, 0, none, some "net8"⟩),
         ("gw8", ⟨"gw8", "sock_g8", "Guest8", IdeType.other, PeerRole.guest,
            PeerStatus.online, ["ses_w8"], 0, 0, none, some "net8"⟩)],
        [("sock_h8", "hw8"), ("sock_g8", "gw8")]⟩,
       [("ses_w8", ⟨"ses_w8", "hw8",
          [("hw8", ⟨"hw8", "sock_h8", PeerRole.host, 0, 0⟩),
           ("gw8", ⟨"gw8", "sock_g8", PeerRole.guest, 0, 0⟩)],
          SessionStatus.active, 0, 0⟩)], [], []⟩ ∧
    InvariantI3 (applyRegOp
      ⟨⟨[("hw8", ⟨"hw8", "sock_h8", "Host8", IdeType.other, PeerRole.host,
            PeerStatus.online, ["ses_w8"], 0, 0, none, some "net8"⟩),
         ("gw8", ⟨"gw8", "sock_g8", "Guest8", IdeType.other, PeerRole.guest,
            PeerStatus.online, ["ses_w8"], 0, 0, none, some "net8"⟩)],
        [("sock_h8", "hw8"), ("sock_g8", "gw8")]⟩,
       [("ses_w8", ⟨"ses_w8", "hw8",
          [("hw8", ⟨"hw8", "sock_h8", PeerRole.host, 0, 0⟩),
           ("gw8", ⟨"gw8", "sock_g8", PeerRole.guest, 0, 0⟩)],
          SessionStatus.active, 0, 0⟩)], [], []⟩
      (RegOp.removeParticipantOp "ses_w8" "gw8" 7)) :=
  ⟨by decide,
   claim8_invariant_preservation
    ⟨⟨[("hw8", ⟨"hw8", "sock_h8", "Host8", IdeType.other, PeerRole.host,
          PeerStatus.online, ["ses_w8"], 0, 0, none, some "net8"⟩),
       ("gw8", ⟨"gw8", "sock_g8", "Guest8", IdeType.other, PeerRole.guest,
          PeerStatus.online, ["ses_w8"], 0, 0, none, some "net8"⟩)],
      [("sock_h8", "hw8"), ("sock_g8", "gw8")]⟩,
     [("ses_w8", ⟨"ses_w8", "hw8",
        [("hw8", ⟨"hw8", "sock_h8", PeerRole.host, 0, 0⟩),
         ("gw8", ⟨"gw8", "sock_g8", PeerRole.guest, 0, 0⟩)],
        SessionStatus.active, 0, 0⟩)], [], []⟩
    (RegOp.removeParticipantOp "ses_w8" "gw8" 7) trivial (by decide)⟩

end PeerSync
